import Mathlib

/-!
Verification development for the Sims4Modly mod-sorter core
(src/Sims4Modly.py).  The Python functions relevant to the claims are
shallowly embedded as executable Lean definitions:

* strings stay strings (Python str methods are re-implemented on
  List Char; lowercasing is ASCII, which agrees with Python on every
  input exercised here);
* the filesystem is an association list from path strings to abstract
  content identifiers (a move never copies, so contents are opaque);
* confidences (Python floats) become rationals -- the code only ever
  compares confidences against literal constants and takes maxima, and
  the float order embeds in the rational order on all values produced;
* fallible operations either return Option or thread an Except, and
  environment-triggered exceptions (a file vanishing between the
  directory walk and the stat call) are an explicit oracle input.

Definitions follow the Python source; definitions whose name ends in
Spec are transcriptions of spec.md sentences for refinement theorems.
-/

set_option maxRecDepth 10000

/-! ### Generic list and string helpers (Python str/list primitives) -/

/-- Tests whether the first list is an initial segment of the second. -/
def leadsList [BEq α] : List α → List α → Bool
  | [], _ => true
  | _ :: _, [] => false
  | a :: as, b :: bs => a == b && leadsList as bs

/-- Python membership test "needle in hay" for sequences (contiguous
subsequence). -/
def containsList [BEq α] : List α → List α → Bool
  | [], needle => leadsList needle []
  | hay@(_ :: t), needle => leadsList needle hay || containsList t needle

/-- Python "needle in hay" on strings. -/
def strContains (hay needle : String) : Bool := containsList hay.data needle.data

/-- Python str.startswith. -/
def strStarts (s pre : String) : Bool := leadsList pre.data s.data

/-- Python str.endswith. -/
def strEnds (s suf : String) : Bool := leadsList suf.data.reverse s.data.reverse

/-- ASCII lowercasing of one character, as Python str.lower does on
ASCII input. -/
def lcChar (c : Char) : Char :=
  if 'A' ≤ c ∧ c ≤ 'Z' then Char.ofNat (c.toNat + 32) else c

/-- Python str.lower (ASCII fragment). -/
def lowerStr (s : String) : String := String.mk (s.data.map lcChar)

/-- Characters stripped by Python str.strip("; "). -/
def isSemiSpace (c : Char) : Bool := c == ';' || c == ' '

/-- Python s.strip("; "): removes leading and trailing semicolons and
spaces. -/
def pyStripSemi (s : String) : String :=
  String.mk (((s.data.dropWhile isSemiSpace).reverse.dropWhile isSemiSpace).reverse)

/-- ASCII whitespace recognised by Python str.strip(). -/
def isPySpace (c : Char) : Bool :=
  c == ' ' || c == '\t' || c == '\n' || c == '\r' || c == '\x0b' || c == '\x0c'

/-- Python str.strip() with no argument. -/
def pyStrip (s : String) : String :=
  String.mk (((s.data.dropWhile isPySpace).reverse.dropWhile isPySpace).reverse)

/-- Python str.split(sep) for a one-character separator, keeping empty
pieces exactly as Python does. -/
def splitChar (sep : Char) : List Char → List (List Char)
  | [] => [[]]
  | c :: rest =>
    let r := splitChar sep rest
    if c = sep then [] :: r
    else match r with
      | [] => [[c]]
      | h :: t => (c :: h) :: t

/-- Splits a list at its last occurrence of sep, returning the parts
before and after that occurrence, or none when sep does not occur. -/
def splitLast (sep : Char) : List Char → Option (List Char × List Char)
  | [] => none
  | c :: rest =>
    match splitLast sep rest with
    | some (l, r) => some (c :: l, r)
    | none => if c = sep then some ([], rest) else none

/-! ### Path primitives (posixpath fragment used by the code; paths in
this model are '/'-separated and the roots used are absolute and
normalised, so os.path.abspath is the identity) -/

/-- Models os.path.join(a, b) for the call pattern used throughout the
source: a absolute directory without trailing separator, b relative. -/
def joinPath (a b : String) : String := a ++ "/" ++ b

/-- Models os.path.dirname for paths with at least one directory
component (the only shapes the claims exercise). -/
def dirname (s : String) : String :=
  match splitLast '/' s.data with
  | some (l, _) => String.mk l
  | none => ""

/-- Models os.path.basename. -/
def basename (s : String) : String :=
  match splitLast '/' s.data with
  | some (_, r) => String.mk r
  | none => s

/-- Models os.path.splitext, including the rule that a leading run of
dots in the final component never starts an extension. -/
def splitext (s : String) : String × String :=
  match splitLast '.' s.data with
  | none => (s, "")
  | some (l, r) =>
    if r.contains '/' then (s, "")
    else
      let bn := match splitLast '/' l with
        | none => l
        | some (_, b) => b
      if bn.all (fun c => c == '.') then (s, "")
      else (String.mk l, String.mk ('.' :: r))

/-! ### Injectivity of the decimal representation of natural numbers.
The Python source builds fresh filenames with str(i); the embedding
uses Nat.repr, and the freshness argument for unique-name generation
needs Nat.repr to be injective. -/

/-- Numeric value of a decimal digit character. -/
def digitVal (c : Char) : Nat := c.toNat - '0'.toNat

/-- Value of a big-endian list of decimal digit characters. -/
def digitsVal (l : List Char) : Nat := l.foldl (fun a c => 10 * a + digitVal c) 0

theorem digitVal_digitChar : ∀ d, d < 10 → digitVal (Nat.digitChar d) = d := by decide

theorem toDigitsCore_fuel (f1 : Nat) : ∀ (f2 n : Nat) (acc : List Char), n < f1 → n < f2 →
    Nat.toDigitsCore 10 f1 n acc = Nat.toDigitsCore 10 f2 n acc := by
  induction f1 with
  | zero => intro f2 n acc h1 _; exact absurd h1 (Nat.not_lt_zero n)
  | succ g ih =>
    intro f2 n acc h1 h2
    cases f2 with
    | zero => exact absurd h2 (Nat.not_lt_zero n)
    | succ h =>
      simp only [Nat.toDigitsCore]
      by_cases hz : n / 10 = 0
      · simp [hz]
      · have hn1 : 1 ≤ n := by
          rcases Nat.eq_zero_or_pos n with h0 | h0
          · exact absurd (by simp [h0]) hz
          · exact h0
        have hlt : n / 10 < n := Nat.div_lt_self hn1 (by norm_num)
        simp only [hz, if_false]
        exact ih h (n / 10) (Nat.digitChar (n % 10) :: acc) (by omega) (by omega)

theorem toDigitsCore_acc (f : Nat) : ∀ (n : Nat) (acc : List Char),
    Nat.toDigitsCore 10 f n acc = Nat.toDigitsCore 10 f n [] ++ acc := by
  induction f with
  | zero => intro n acc; simp [Nat.toDigitsCore]
  | succ g ih =>
    intro n acc
    simp only [Nat.toDigitsCore]
    by_cases hz : n / 10 = 0
    · simp [hz]
    · simp only [hz, if_false]
      rw [ih (n / 10) (Nat.digitChar (n % 10) :: acc),
        ih (n / 10) (Nat.digitChar (n % 10) :: [])]
      simp

theorem digitsVal_toDigits : ∀ n, digitsVal (Nat.toDigits 10 n) = n := by
  intro n
  induction n using Nat.strong_induction_on with
  | _ n ih =>
    show digitsVal (Nat.toDigitsCore 10 (n + 1) n []) = n
    by_cases hz : n / 10 = 0
    · have hn : n < 10 := by omega
      rw [show Nat.toDigitsCore 10 (n + 1) n [] = [Nat.digitChar (n % 10)] by
        simp [Nat.toDigitsCore, hz]]
      simp [digitsVal, Nat.mod_eq_of_lt hn, digitVal_digitChar n hn]
    · have hn1 : 1 ≤ n := by
        rcases Nat.eq_zero_or_pos n with h0 | h0
        · exact absurd (by simp [h0]) hz
        · exact h0
      have hlt : n / 10 < n := Nat.div_lt_self hn1 (by norm_num)
      simp only [Nat.toDigitsCore, hz, if_false]
      rw [toDigitsCore_fuel n (n / 10 + 1) (n / 10) (Nat.digitChar (n % 10) :: []) hlt
          (Nat.lt_succ_self _),
        toDigitsCore_acc]
      have hxs : digitsVal (Nat.toDigits 10 (n / 10)) = n / 10 := ih (n / 10) hlt
      show digitsVal (Nat.toDigits 10 (n / 10) ++ [Nat.digitChar (n % 10)]) = n
      simp only [digitsVal, List.foldl_append] at hxs ⊢
      rw [hxs]
      simp [digitVal_digitChar (n % 10) (Nat.mod_lt n (by norm_num)), Nat.div_add_mod]

theorem natRepr_inj : Function.Injective Nat.repr := by
  intro m n h
  have hd : Nat.toDigits 10 m = Nat.toDigits 10 n := by
    have := congrArg String.data h
    simpa [Nat.repr, List.asString] using this
  have := congrArg digitsVal hd
  simpa [digitsVal_toDigits] using this

/-! ### Filesystem model.  A filesystem is an association list from
path strings to opaque content identifiers; lookup takes the first
binding.  Directories are not modelled (os.makedirs is a no-op here),
and a move is remove-then-bind, replacing any binding at the
destination exactly as a same-filesystem rename does. -/

/-- Association-list filesystem: path to abstract file content. -/
abbrev FS := List (String × Nat)

/-- Content at a path, if any. -/
def findFS : FS → String → Option Nat
  | [], _ => none
  | (q, v) :: rest, p => if q = p then some v else findFS rest p

/-- Models os.path.exists on the model filesystem. -/
def existsFS (fs : FS) (p : String) : Bool := (findFS fs p).isSome

/-- Removes every binding at a path. -/
def eraseFS : FS → String → FS
  | [], _ => []
  | (q, v) :: rest, p => if q = p then eraseFS rest p else (q, v) :: eraseFS rest p

/-- Binds a path to a content, replacing any previous binding. -/
def insertFS (fs : FS) (p : String) (v : Nat) : FS := (p, v) :: eraseFS fs p

/-- Models shutil.move for regular files on one filesystem: no-op when
the source is absent (callers that would raise instead are modelled
with Except at their call site). -/
def moveFS (fs : FS) (src dst : String) : FS :=
  match findFS fs src with
  | none => fs
  | some v => insertFS (eraseFS fs src) dst v

theorem findFS_erase (fs : FS) (p q : String) :
    findFS (eraseFS fs p) q = if p = q then none else findFS fs q := by
  induction fs with
  | nil => simp [eraseFS, findFS]
  | cons e rest ih =>
    obtain ⟨r, v⟩ := e
    by_cases hrp : r = p
    · rw [show eraseFS ((r, v) :: rest) p = eraseFS rest p by simp [eraseFS, hrp]]
      subst hrp
      by_cases hpq : r = q
      · subst hpq; simp [ih]
      · simp [findFS, hpq, ih]
    · rw [show eraseFS ((r, v) :: rest) p = (r, v) :: eraseFS rest p by
        simp [eraseFS, hrp]]
      by_cases hrq : r = q
      · have hpq : ¬ p = q := fun h => hrp (hrq.trans h.symm)
        simp [findFS, hrq, hpq]
      · simp [findFS, hrq, ih]

theorem findFS_insert (fs : FS) (p q : String) (v : Nat) :
    findFS (insertFS fs p v) q = if p = q then some v else findFS fs q := by
  by_cases h : p = q
  · subst h; simp [insertFS, findFS]
  · simp [insertFS, findFS, h, findFS_erase]

theorem findFS_move (fs : FS) (src dst q : String) :
    findFS (moveFS fs src dst) q =
      match findFS fs src with
      | none => findFS fs q
      | some v =>
        if dst = q then some v else if src = q then none else findFS fs q := by
  unfold moveFS
  cases hsrc : findFS fs src with
  | none => rfl
  | some v => simp [findFS_insert, findFS_erase]

/-! ### Unique-name generation.  The source has two variants of the
same while loop: _unique_path(p) (candidates p, "base (1)ext",
"base (2)ext", ...) and _uniq_name_in(folder, name) (same candidates
joined under folder).  The loop runs until a candidate does not exist;
here it is fuelled, and the fuel fs.length + 1 is proved sufficient. -/

/-- One while-iteration structure shared by _unique_path and
_uniq_name_in: returns the first candidate, in order, that does not
exist (fuel bounds the number of iterations and is proved ample). -/
def uniqLoop (fs : FS) (cand : Nat → String) : Nat → Nat → String
  | 0, k => cand k
  | fuel + 1, k => if existsFS fs (cand k) then uniqLoop fs cand fuel (k + 1) else cand k

/-- Candidate sequence of _uniq_name_in(folder, name). -/
def uniqNameCand (folder name base ext : String) : Nat → String
  | 0 => joinPath folder name
  | k + 1 => joinPath folder (base ++ " (" ++ Nat.repr (k + 1) ++ ")" ++ ext)

/-- Models _uniq_name_in(folder, name): first non-existing of
folder/name, folder/"base (1)ext", folder/"base (2)ext", ... -/
def uniq_name_in (fs : FS) (folder name : String) : String :=
  uniqLoop fs (uniqNameCand folder name (splitext name).1 (splitext name).2)
    (fs.length + 1) 0

/-- Candidate sequence of _unique_path(p). -/
def uniquePathCand (p base ext : String) : Nat → String
  | 0 => p
  | k + 1 => base ++ " (" ++ Nat.repr (k + 1) ++ ")" ++ ext

/-- Models _unique_path(p): first non-existing of p, "base (1)ext",
"base (2)ext", ... -/
def unique_path (fs : FS) (p : String) : String :=
  uniqLoop fs (uniquePathCand p (splitext p).1 (splitext p).2) (fs.length + 1) 0

theorem splitLast_eq (sep : Char) :
    ∀ (l a b : List Char), splitLast sep l = some (a, b) → l = a ++ sep :: b := by
  intro l
  induction l with
  | nil => intro a b h; simp [splitLast] at h
  | cons c rest ih =>
    intro a b h
    simp only [splitLast] at h
    cases hr : splitLast sep rest with
    | some lr =>
      obtain ⟨l2, r2⟩ := lr
      rw [hr] at h
      have h2 : (c :: l2, r2) = (a, b) := Option.some.inj h
      have ha : a = c :: l2 := (congrArg Prod.fst h2).symm
      have hb : b = r2 := (congrArg Prod.snd h2).symm
      rw [ha, hb, ih l2 r2 hr]
      simp
    | none =>
      rw [hr] at h
      by_cases hc : c = sep
      · rw [if_pos hc] at h
        have h2 : (([] : List Char), rest) = (a, b) := Option.some.inj h
        have ha : a = [] := (congrArg Prod.fst h2).symm
        have hb : b = rest := (congrArg Prod.snd h2).symm
        rw [ha, hb]
        simp [hc]
      · simp [hc] at h

theorem string_mk_append (a b : List Char) :
    String.mk a ++ String.mk b = String.mk (a ++ b) := by
  apply String.ext
  simp [String.data_append]

theorem splitext_append (s : String) : (splitext s).1 ++ (splitext s).2 = s := by
  cases h : splitLast '.' s.data with
  | none => simp [splitext, h]
  | some lr =>
    obtain ⟨l, r⟩ := lr
    have hs : s.data = l ++ '.' :: r := splitLast_eq '.' s.data l r h
    simp only [splitext, h]
    split
    · simp
    · split
      · simp
      · rw [string_mk_append]
        apply String.ext
        simp [hs]

theorem existsFS_iff_mem (fs : FS) (p : String) :
    existsFS fs p = true ↔ p ∈ fs.map Prod.fst := by
  induction fs with
  | nil => simp [existsFS, findFS]
  | cons e rest ih =>
    obtain ⟨q, v⟩ := e
    by_cases h : q = p
    · subst h; simp [existsFS, findFS]
    · simp only [existsFS, findFS, if_neg h, List.map_cons, List.mem_cons]
      rw [existsFS] at ih
      rw [ih]
      constructor
      · exact Or.inr
      · rintro (hqp | hm)
        · exact absurd hqp.symm h
        · exact hm

theorem exists_fresh_cand (fs : FS) (cand : Nat → String)
    (hinj : ∀ j k, cand j = cand k → j = k) :
    ∃ j, j ≤ fs.length + 1 ∧ existsFS fs (cand j) = false := by
  by_contra hno
  push_neg at hno
  have hmem : ∀ j, j ≤ fs.length + 1 → cand j ∈ fs.map Prod.fst := by
    intro j hj
    have := hno j hj
    have htrue : existsFS fs (cand j) = true := by
      cases hb : existsFS fs (cand j) with
      | true => rfl
      | false => exact absurd hb this
    exact (existsFS_iff_mem fs (cand j)).mp htrue
  have hcard : ((Finset.range (fs.length + 2)).image cand).card = fs.length + 2 := by
    rw [Finset.card_image_of_injOn (fun a _ b _ hab => hinj a b hab)]
    simp
  have hsub : (Finset.range (fs.length + 2)).image cand ⊆ (fs.map Prod.fst).toFinset := by
    intro x hx
    obtain ⟨j, hj, rfl⟩ := Finset.mem_image.mp hx
    rw [List.mem_toFinset]
    exact hmem j (by simpa using Nat.lt_succ_iff.mp (Finset.mem_range.mp hj))
  have h1 := Finset.card_le_card hsub
  have h2 := List.toFinset_card_le (fs.map Prod.fst)
  rw [hcard] at h1
  have : fs.length + 2 ≤ fs.length := by
    calc fs.length + 2 ≤ (fs.map Prod.fst).toFinset.card := h1
    _ ≤ (fs.map Prod.fst).length := h2
    _ = fs.length := List.length_map ..
  omega

theorem uniqLoop_fresh (fs : FS) (cand : Nat → String) :
    ∀ (fuel k : Nat), (∃ j, k ≤ j ∧ j ≤ k + fuel ∧ existsFS fs (cand j) = false) →
    existsFS fs (uniqLoop fs cand fuel k) = false := by
  intro fuel
  induction fuel with
  | zero =>
    intro k ⟨j, hkj, hjk, hfresh⟩
    have : j = k := by omega
    subst this
    simpa [uniqLoop] using hfresh
  | succ f ih =>
    intro k ⟨j, hkj, hjk, hfresh⟩
    rw [uniqLoop]
    cases hc : existsFS fs (cand k) with
    | false => simp [hc]
    | true =>
      have hjne : j ≠ k := by
        intro h; rw [h] at hfresh; rw [hfresh] at hc; exact Bool.noConfusion hc
      simp only [hc, if_true]
      exact ih (k + 1) ⟨j, by omega, by omega, hfresh⟩

theorem uniqNameCand_inj (folder name base ext : String)
    (hlen : name.length = base.length + ext.length) :
    ∀ j k, uniqNameCand folder name base ext j = uniqNameCand folder name base ext k →
      j = k := by
  have e1 : (" (" : String).length = 2 := rfl
  have e2 : ((")" : String)).length = 1 := rfl
  intro j k h
  rcases j with _ | j <;> rcases k with _ | k
  · rfl
  · exfalso
    have hl := congrArg String.length h
    simp only [uniqNameCand, joinPath, String.length_append] at hl
    rw [hlen, e1, e2] at hl
    omega
  · exfalso
    have hl := congrArg String.length h
    simp only [uniqNameCand, joinPath, String.length_append] at hl
    rw [hlen, e1, e2] at hl
    omega
  · have hd := congrArg String.data h
    simp only [uniqNameCand, joinPath, String.data_append, List.append_assoc] at hd
    have h1 := List.append_cancel_left hd
    have h2 := List.append_cancel_left h1
    have h3 := List.append_cancel_left h2
    have h4 := List.append_cancel_left h3
    have h5 := List.append_cancel_right h4
    have h6 : Nat.repr (j + 1) = Nat.repr (k + 1) := String.ext h5
    exact natRepr_inj h6

theorem uniq_name_in_fresh (fs : FS) (folder name : String) :
    existsFS fs (uniq_name_in fs folder name) = false := by
  have hlen : name.length = (splitext name).1.length + (splitext name).2.length := by
    have hx := congrArg String.length (splitext_append name)
    rw [String.length_append] at hx
    omega
  apply uniqLoop_fresh
  obtain ⟨j, hj, hfresh⟩ := exists_fresh_cand fs
    (uniqNameCand folder name (splitext name).1 (splitext name).2)
    (uniqNameCand_inj folder name (splitext name).1 (splitext name).2 hlen)
  exact ⟨j, Nat.zero_le j, by omega, hfresh⟩

theorem unique_path_not_exists (fs : FS) (p : String)
    (h : existsFS fs p = false) : unique_path fs p = p := by
  simp [unique_path, uniqLoop, uniquePathCand, h]

theorem uniq_name_in_not_exists (fs : FS) (folder name : String)
    (h : existsFS fs (joinPath folder name) = false) :
    uniq_name_in fs folder name = joinPath folder name := by
  simp [uniq_name_in, uniqLoop, uniqNameCand, h]

theorem moveFS_preserves (fs : FS) (src dst : String)
    (hdst : findFS fs dst = none) (v : Nat) (p : String)
    (hp : findFS fs p = some v) : ∃ q, findFS (moveFS fs src dst) q = some v := by
  cases hsrc : findFS fs src with
  | none => exact ⟨p, by simp [moveFS, hsrc, hp]⟩
  | some w =>
    by_cases hps : src = p
    · refine ⟨dst, ?_⟩
      have hwv : w = v := by
        rw [hps] at hsrc; rw [hsrc] at hp; exact Option.some.inj hp
      simp [moveFS, hsrc, findFS_insert, hwv]
    · refine ⟨p, ?_⟩
      have hdp : ¬ dst = p := by
        intro hx; rw [hx] at hdst; rw [hdst] at hp; exact Option.noConfusion hp
      simp [moveFS, hsrc, findFS_insert, hdp, findFS_erase, hps, hp]

/-! ### Keyword table (Section 2 of the source).  KEYWORDS_raw is the
literal list inside the sorted(...) call that defines _KEYWORDS, in
source order; the sorts below reproduce the two Python sorted() calls
(Python sort is stable, as is the insertion sort used here). -/

def KEYWORDS_raw : List (String × String) := [
  ("ui cheats", "script mod"), ("uicheats", "script mod"),
  ("ui-cheats", "script mod"), ("cheats", "script mod"),
  ("cheat", "script mod"), ("cmd", "script mod"),
  ("mccc", "script mod"), ("mc cmd center", "script mod"),
  ("mc command", "script mod"), ("mc command center", "script mod"),
  (".ts4script", "script mod"), ("ts4script", "script mod"),
  ("better exceptions", "script mod"), ("xml injector test", "utility tool"),
  ("xml injector", "utility tool"), ("xmlinjector", "utility tool"),
  ("s4cl", "utility tool"), ("community library", "utility tool"),
  ("core library", "utility tool"), ("framework", "utility tool"),
  ("library", "utility tool"), ("api", "utility tool"),
  ("shared", "utility tool"), ("tool", "utility tool"),
  ("tool v", "utility tool"), ("twistedmexi", "utility tool"),
  ("tmex", "utility tool"), ("tuning", "gameplay tuning"),
  ("autonomy", "gameplay tuning"), ("module", "gameplay tuning"),
  ("overhaul", "gameplay tuning"), ("addon", "gameplay tuning"),
  ("add-on", "gameplay tuning"), ("add on", "gameplay tuning"),
  ("trait", "gameplay tuning"), ("career", "gameplay tuning"),
  ("aspiration", "gameplay tuning"), ("buff", "gameplay tuning"),
  ("moodlet", "gameplay tuning"), ("interaction", "gameplay tuning"),
  ("interactions", "gameplay tuning"), ("npc", "gameplay tuning"),
  ("patch", "gameplay tuning"), ("fix", "gameplay tuning"),
  ("bugfix", "gameplay tuning"), ("lms", "gameplay tuning"),
  ("littlemssam", "gameplay tuning"), ("lumpinou", "gameplay tuning"),
  ("royalty mod", "gameplay tuning"), ("royalty", "gameplay tuning"),
  ("clubrequirements", "gameplay tuning"), ("club requirements", "gameplay tuning"),
  ("club filter", "gameplay tuning"), ("club rules", "gameplay tuning"),
  ("clubrules", "gameplay tuning"), ("recipe", "gameplay tuning"),
  ("recipes", "gameplay tuning"), ("phone app", "gameplay tuning"),
  ("phoneapp", "gameplay tuning"), ("weatherapp", "gameplay tuning"),
  ("sulsulweatherapp", "gameplay tuning"), ("weather app", "gameplay tuning"),
  ("socialactivities", "gameplay tuning"), ("social activities", "gameplay tuning"),
  ("live in services", "gameplay tuning"), ("liveinservices", "gameplay tuning"),
  ("simda", "gameplay tuning"), ("lot trait", "gameplay tuning"),
  ("lottrait", "gameplay tuning"), ("lot challenge", "gameplay tuning"),
  ("lotchallenge", "gameplay tuning"), ("classes", "gameplay tuning"),
  ("auto classes", "gameplay tuning"), ("auto-classes", "gameplay tuning"),
  ("autoclasses", "gameplay tuning"), ("venue", "gameplay tuning"),
  ("venues", "gameplay tuning"), ("calendar", "gameplay tuning"),
  ("bank", "gameplay tuning"), ("atm", "gameplay tuning"),
  ("loan", "gameplay tuning"), ("interest", "gameplay tuning"),
  ("bill", "gameplay tuning"), ("utilities", "gameplay tuning"),
  ("power", "gameplay tuning"), ("water", "gameplay tuning"),
  ("pregnancy overhaul", "gameplay tuning"), ("pregnancyoverhaul", "gameplay tuning"),
  ("pregnancy", "gameplay tuning"), ("pregnant", "gameplay tuning"),
  ("miscarriage", "gameplay tuning"), ("abortion", "gameplay tuning"),
  ("mood pack", "gameplay tuning"), ("moodpack", "gameplay tuning"),
  ("ask", "gameplay tuning"), ("job", "gameplay tuning"),
  ("jobs", "gameplay tuning"), ("ui override", "override"),
  ("default replacement", "override"), ("defaultreplac", "override"),
  ("default-replacement", "override"), ("loading screen", "override"),
  ("cas lighting", "override"), ("lighting override", "override"),
  ("simsiphone", "override"), ("iphone ui", "override"),
  ("phone ui", "override"), ("smartphone ui", "override"),
  ("reskin", "override"), ("icon override", "override"),
  ("cas background", "override"), ("default eyes", "override"),
  ("default skin", "override"), ("default brows", "override"),
  ("default eyebrows", "override"), ("cosplay", "cas clothing"),
  ("outfit", "cas clothing"), ("uniform", "cas clothing"),
  ("schoolgirl", "cas clothing"), ("sailor", "cas clothing"),
  ("kimono", "cas clothing"), ("cheongsam", "cas clothing"),
  ("qipao", "cas clothing"), ("full body outfit", "cas clothing"),
  ("long sleeve", "cas clothing"), ("crop top", "cas clothing"),
  ("top", "cas clothing"), ("bottom", "cas clothing"),
  ("shirt", "cas clothing"), ("blouse", "cas clothing"),
  ("hoodie", "cas clothing"), ("jacket", "cas clothing"),
  ("coat", "cas clothing"), ("dress", "cas clothing"),
  ("skirt", "cas clothing"), ("gown", "cas clothing"),
  ("jeans", "cas clothing"), ("pants", "cas clothing"),
  ("trousers", "cas clothing"), ("shorts", "cas clothing"),
  ("legging", "cas clothing"), ("activewear", "cas clothing"),
  ("tracksuit", "cas clothing"), ("bikini", "cas clothing"),
  ("swimsuit", "cas clothing"), ("bodysuit", "cas clothing"),
  ("sweater", "cas clothing"), ("cardigan", "cas clothing"),
  ("heels", "cas clothing"), ("boots", "cas clothing"),
  ("sandals", "cas clothing"), ("sneaker", "cas clothing"),
  ("shoe", "cas clothing"), ("shoes", "cas clothing"),
  ("underwear", "cas clothing"), ("knickers", "cas clothing"),
  ("boxers", "cas clothing"), ("socks", "cas clothing"),
  ("gonna", "cas clothing"), ("maglietta", "cas clothing"),
  ("maternita", "cas clothing"), ("maternità", "cas clothing"),
  ("stocking", "CAS Clothing"), ("stockings", "CAS Clothing"),
  ("hair", "cas hair"), ("beard", "cas hair"),
  ("mustache", "cas hair"), ("moustache", "cas hair"),
  ("goatee", "cas hair"), ("stubble", "cas hair"),
  ("sideburns", "cas hair"), ("makeup", "cas makeup"),
  ("lipstick", "cas makeup"), ("blush", "cas makeup"),
  ("eyeliner", "cas makeup"), ("eyeshadow", "cas makeup"),
  ("highlighter", "cas makeup"), ("contour", "cas makeup"),
  ("foundation", "cas makeup"), ("skin", "cas skin"),
  ("overlay", "cas skin"), ("tattoo", "cas skin"),
  ("eyelid", "cas skin"), ("eyefold", "cas skin"),
  ("freckle", "cas skin"), ("freckles", "cas skin"),
  ("skin detail", "cas skin"), ("mole", "cas skin"),
  ("moles", "cas skin"), ("scar", "cas skin"),
  ("scars", "cas skin"), ("eye", "cas eyes"),
  ("eyes", "cas eyes"), ("iris", "cas eyes"),
  ("pupil", "cas eyes"), ("heterochromia", "cas eyes"),
  ("contacts", "cas eyes"), ("retinal", "cas eyes"),
  ("glasses", "cas accessories"), ("spectacles", "cas accessories"),
  ("earring", "cas accessories"), ("eyebrow", "cas accessories"),
  ("brow", "cas accessories"), ("lash", "cas accessories"),
  ("eyelash", "cas accessories"), ("ring", "cas accessories"),
  ("necklace", "cas accessories"), ("piercing", "cas accessories"),
  ("nails", "cas accessories"), ("glove", "cas accessories"),
  ("bracelet", "cas accessories"), ("anklet", "cas accessories"),
  ("belt", "cas accessories"), ("choker", "cas accessories"),
  ("collar", "cas accessories"), ("chain", "cas accessories"),
  ("barbell", "cas accessories"), ("stud", "cas accessories"),
  ("septum", "cas accessories"), ("labret", "cas accessories"),
  ("industrial", "cas accessories"), ("bridge", "cas accessories"),
  ("nose ring", "cas accessories"), ("lip ring", "cas accessories"),
  ("hoop", "cas accessories"), ("gauge", "cas accessories"),
  ("eargauge", "cas accessories"), ("headpiece", "cas accessories"),
  ("horn", "cas accessories"), ("horns", "cas accessories"),
  ("tail", "cas accessories"), ("wing", "cas accessories"),
  ("wings", "cas accessories"), ("mask", "cas accessories"),
  ("tattoo", "cas tattoos"), ("tattoobody", "cas tattoos"),
  ("tattoo", "CAS Tattoos"), ("recolor", "buildbuy recolour"),
  ("recolour", "buildbuy recolour"), ("swatch", "buildbuy recolour"),
  ("object", "buildbuy object"), ("clutter", "buildbuy object"),
  ("deco", "buildbuy object"), ("furniture", "buildbuy object"),
  ("sofa", "buildbuy object"), ("chair", "buildbuy object"),
  ("table", "buildbuy object"), ("coffee table", "buildbuy object"),
  ("dining table", "buildbuy object"), ("end table", "buildbuy object"),
  ("side table", "buildbuy object"), ("bed", "buildbuy object"),
  ("nightstand", "buildbuy object"), ("painting", "buildbuy object"),
  ("poster", "buildbuy object"), ("wall art", "buildbuy object"),
  ("frame", "buildbuy object"), ("picture frame", "buildbuy object"),
  ("artwork", "buildbuy object"), ("canvas", "buildbuy object"),
  ("art", "buildbuy object"), ("mirror", "buildbuy object"),
  ("plant", "buildbuy object"), ("rug", "buildbuy object"),
  ("curtain", "buildbuy object"), ("window", "buildbuy object"),
  ("door", "buildbuy object"), ("lamp", "buildbuy object"),
  ("ceiling light", "buildbuy object"), ("floor lamp", "buildbuy object"),
  ("wall lamp", "buildbuy object"), ("desk", "buildbuy object"),
  ("dresser", "buildbuy object"), ("wardrobe", "buildbuy object"),
  ("shelf", "buildbuy object"), ("shelving", "buildbuy object"),
  ("counter", "buildbuy object"), ("cabinet", "buildbuy object"),
  ("stove", "buildbuy object"), ("oven", "buildbuy object"),
  ("fridge", "buildbuy object"), ("refrigerator", "buildbuy object"),
  ("sink", "buildbuy object"), ("toilet", "buildbuy object"),
  ("shower", "buildbuy object"), ("bathtub", "buildbuy object"),
  ("bath", "buildbuy object"), ("bookshelf", "buildbuy object"),
  ("bookcase", "buildbuy object"), ("microwave", "buildbuy object"),
  ("dishwasher", "buildbuy object"), ("washing machine", "buildbuy object"),
  ("washer", "buildbuy object"), ("dryer", "buildbuy object"),
  ("tv", "buildbuy object"), ("television", "buildbuy object"),
  ("smart tv", "buildbuy object"), ("smartview", "buildbuy object"),
  ("monitor", "buildbuy object"), ("screen", "buildbuy object"),
  ("computer", "buildbuy object"), ("pc", "buildbuy object"),
  ("laptop", "buildbuy object"), ("console", "buildbuy object"),
  ("speaker", "buildbuy object"), ("stereo", "buildbuy object"),
  ("radio", "buildbuy object"), ("phone", "buildbuy object"),
  ("alarm", "buildbuy object"), ("alarmunit", "buildbuy object"),
  ("animation", "animation"), ("animation pack", "animation"),
  ("anim_", "animation"), ("swimming", "animation"),
  ("pose", "pose"), ("posepack", "pose"),
  ("pose pack", "pose"), ("cas pose", "pose"),
  ("pose player", "pose"), ("teleporter", "pose"),
  ("preset", "preset"), ("slider", "slider"),
  ("world", "world"), ("override", "override"),
  ("betterreactions", "gameplay tuning"), ("wickedwhims", "adult gameplay"),
  ("turbodriver", "adult gameplay"), ("basemental", "adult gameplay"),
  ("nisak", "adult gameplay"), ("nisa", "adult gameplay"),
  ("wild_guy", "adult gameplay"), ("wild guy", "adult gameplay"),
  ("wickedperversions", "adult gameplay"), ("perversions", "adult gameplay"),
  ("nsfw", "adult gameplay"), ("porn", "adult gameplay"),
  ("sex", "adult gameplay"), ("nude", "adult gameplay"),
  ("naked", "adult gameplay"), ("strip", "adult gameplay"),
  ("lapdance", "adult gameplay"), ("prostitution", "adult gameplay"),
  ("oral", "adult gameplay"), ("anal", "adult gameplay"),
  ("blowjob", "adult gameplay"), ("handjob", "adult gameplay"),
  ("boobjob", "adult gameplay"), ("creampie", "adult gameplay"),
  ("cumshot", "adult gameplay"), ("bdsm", "adult gameplay"),
  ("bondage", "adult gameplay"), ("fetish", "adult gameplay"),
  ("cum", "adult gameplay"), ("cock", "adult gameplay"),
  ("lingerie", "adult cas"), ("pasties", "adult cas"),
  ("g-string", "adult cas"), ("gstring", "adult cas"),
  ("thong", "adult cas"), ("strapon", "adult cas"),
  ("strap-on", "adult cas"), ("strap on", "adult cas"),
  ("genital", "adult cas"), ("penis", "adult cas"),
  ("vagina", "adult cas"), ("pornstar", "adult cas"),
  ("latex", "adult cas"), ("sheath", "adult cas"),
  ("rubber", "adult cas"), ("layer set", "adult cas"),
  ("dildo", "adult buildbuy"), ("vibrator", "adult buildbuy"),
  ("plug", "adult buildbuy"), ("butt plug", "adult buildbuy"),
  ("buttplug", "adult buildbuy"), ("anal beads", "adult buildbuy"),
  ("wickedwhims animation", "adult animation"), ("ww animations", "adult animation"),
  ("ww anarcis", "adult animation"), ("anarcis", "adult animation"),
  ("condom wrapper", "Adult CAS"), ("condomwrapper", "Adult CAS"),
  ("condom", "Adult BuildBuy"), ("condoms", "Adult BuildBuy")
]
def CANON : List (String × String) := [
  ("adult gameplay", "Adult - Gameplay"),
  ("adult animation", "Adult - Gameplay"),
  ("adult cas", "Adult - CAS"),
  ("adult buildbuy", "Build/Buy"),
  ("buildbuy object", "Build/Buy"),
  ("buildbuy recolour", "Build/Buy"),
  ("utility tool", "Utilities"),
  ("cas makeup", "CAS Accessories"),
  ("cas eyes", "CAS Accessories"),
  ("cas tattoos", "CAS Accessories"),
  ("cas skin", "CAS Accessories")
]

def FOLDER_HINTS : List (String × String) := [
  ("mcc", "Script Mod"),
  ("ui cheats", "Script Mod"),
  ("script", "Script Mod"),
  ("framework", "Utilities"),
  ("utility", "Utilities"),
  ("utilities", "Utilities"),
  ("cas", "CAS Clothing"),
  ("create a sim", "CAS Clothing"),
  ("hair", "CAS Hair"),
  ("makeup", "CAS Accessories"),
  ("eyes", "CAS Accessories"),
  ("tattoo", "CAS Accessories"),
  ("accessor", "CAS Accessories"),
  ("build", "Build/Buy"),
  ("buy", "Build/Buy"),
  ("override", "Overrides"),
  ("overrides", "Overrides"),
  ("animation", "Animation"),
  ("animations", "Animation"),
  ("pose", "Animation"),
  ("poses", "Animation"),
  ("gameplay", "Gameplay Mods"),
  ("tuning", "Gameplay Tuning")
]

def RESOURCE_TYPE_HINTS : List (Nat × String × String) := [
  (0x034AEECB, "CAS Clothing", "DBPF: CASP"),
  (0x015A1849, "CAS Clothing", "DBPF: GEOM"),
  (0x3453CF95, "CAS Clothing", "DBPF: RLE2"),
  (0x00B2D882, "CAS Clothing", "DBPF: RLE "),
  (0x319E4F1D, "Build/Buy", "DBPF: OBJD"),
  (0x01D10F34, "Build/Buy", "DBPF: MLOD"),
  (0x220557DA, "Build/Buy", "DBPF: STBL"),
  (0x0333406C, "Gameplay Tuning", "DBPF: XML"),
  (0xEBCF4E9B, "Gameplay Tuning", "DBPF: SIMDATA"),
  (0xA0F3F4D4, "Animation", "DBPF: CLIP")
]

def CATEGORY_ORDER : List String := [
  "Script Mod",
  "Gameplay Mods",
  "Gameplay Tuning",
  "Adult - Gameplay",
  "Adult - CAS",
  "CAS Clothing",
  "CAS Hair",
  "CAS Accessories",
  "Build/Buy",
  "Overrides",
  "Animation",
  "Utilities",
  "Archive",
  "Other",
  "Unknown"
]

def DEFAULT_FOLDER_MAP : List (String × String) := [
  ("Script Mod", "Script Mods"),
  ("Gameplay Mods", "Gameplay Mods"),
  ("Gameplay Tuning", "Gameplay Tuning"),
  ("Adult - Gameplay", "Adult - Gameplay"),
  ("Adult - CAS", "Adult - CAS"),
  ("CAS Clothing", "CAS Clothing"),
  ("CAS Hair", "CAS Hair"),
  ("CAS Accessories", "CAS Accessories"),
  ("Build/Buy", "Build Buy"),
  ("Overrides", "Overrides"),
  ("Animation", "Animations"),
  ("Utilities", "Utilities"),
  ("Archive", "Archives"),
  ("Other", "Other"),
  ("Unknown", "Unsorted")
]


/-- Stable insertion into an ascending list: the new element goes in
front of the first position that is not strictly below it, so elements
comparing equal keep their original relative order (Python sort is
stable in the same sense). -/
def insertSorted (lt : α → α → Bool) (x : α) : List α → List α
  | [] => [x]
  | y :: ys => if lt y x then y :: insertSorted lt x ys else x :: y :: ys

/-- Stable sort by a strict comparison, reproducing Python sorted(). -/
def pySorted (lt : α → α → Bool) : List α → List α
  | [] => []
  | x :: xs => insertSorted lt x (pySorted lt xs)

/-- Lexicographic comparison of character lists by code point, the
order Python uses to compare strings. -/
def listLtChar : List Char → List Char → Bool
  | _, [] => false
  | [], _ :: _ => true
  | a :: as, b :: bs =>
    if a.toNat < b.toNat then true
    else if b.toNat < a.toNat then false
    else listLtChar as bs

/-- Python string comparison a < b. -/
def strLt (a b : String) : Bool := listLtChar a.data b.data

/-- Strict order on keyword pairs by the key (phrase, category), the
key of the sorted() call defining _KEYWORDS. -/
def kvLt (a b : String × String) : Bool :=
  strLt a.1 b.1 || (a.1 == b.1 && strLt a.2 b.2)

/-- Strict order on keyword pairs by the key (-len(phrase), phrase),
the key of the sorted() call defining _KW. -/
def kwLt (a b : String × String) : Bool :=
  decide (b.1.length < a.1.length) ||
    (a.1.length == b.1.length && strLt a.1 b.1)

/-- Models _KEYWORDS: the raw literal sorted by (phrase, category). -/
def KEYWORDS : List (String × String) := pySorted kvLt KEYWORDS_raw

/-- Models _KW: phrases lowercased and stripped, then sorted longest
first with lexicographic tie-break. -/
def KW : List (String × String) :=
  pySorted kwLt (KEYWORDS.map (fun kv => (pyStrip (lowerStr kv.1), kv.2)))

/-- First-match lookup in an association list, as dict.get for the
small literal dicts of the source (their keys are pairwise distinct,
so insertion-order lookup is dict lookup). -/
def lookupStr : List (String × String) → String → Option String
  | [], _ => none
  | (k, v) :: rest, key => if k = key then some v else lookupStr rest key

/-- Models _canon. -/
def canon (cat : String) : String := (lookupStr CANON cat).getD cat

/-- Body of guess_type_for_name over an explicit keyword table.
Float literals are written mkRat n d (0.95 is mkRat 95 100, and so on)
because rational literal notation does not reduce under kernel
evaluation. -/
def guess_type_for_name_with (table : List (String × String)) (name ext : String) :
    String × ℚ × String :=
  let n := lowerStr name
  if ext = ".ts4script" then ("Script Mod", mkRat 95 100, "by extension")
  else if ext = ".zip" ∨ ext = ".rar" ∨ ext = ".7z" then ("Archive", mkRat 7 10, "archive")
  else
    match List.find? (fun kv => !(kv.1 == "") && strContains n kv.1) table with
    | some kv => (canon kv.2, mkRat 70 100, "Keyword: " ++ kv.1)
    | none =>
      if ext = ".package" then ("Unknown", mkRat 40 100, "Package with no keyword match")
      else ("Other", mkRat 60 100,
        if ext = "" then "No extension" else "Unhandled ext " ++ ext)

/-- Models guess_type_for_name(name, ext): the five-branch name
classifier, scanning _KW in order. -/
def guess_type_for_name (name ext : String) : String × ℚ × String :=
  guess_type_for_name_with KW name ext
def KW_lit : List (String × String) := [
  ("wickedwhims animation", "adult animation"), ("default replacement", "override"),
  ("default-replacement", "override"), ("pregnancy overhaul", "gameplay tuning"),
  ("better exceptions", "script mod"), ("club requirements", "gameplay tuning"),
  ("community library", "utility tool"), ("lighting override", "override"),
  ("mc command center", "script mod"), ("pregnancyoverhaul", "gameplay tuning"),
  ("social activities", "gameplay tuning"), ("wickedperversions", "adult gameplay"),
  ("xml injector test", "utility tool"), ("clubrequirements", "gameplay tuning"),
  ("default eyebrows", "override"), ("full body outfit", "cas clothing"),
  ("live in services", "gameplay tuning"), ("socialactivities", "gameplay tuning"),
  ("sulsulweatherapp", "gameplay tuning"), ("betterreactions", "gameplay tuning"),
  ("washing machine", "buildbuy object"), ("animation pack", "animation"),
  ("cas background", "override"), ("condom wrapper", "Adult CAS"),
  ("liveinservices", "gameplay tuning"), ("loading screen", "override"),
  ("ceiling light", "buildbuy object"), ("condomwrapper", "Adult CAS"),
  ("default brows", "override"), ("defaultreplac", "override"),
  ("heterochromia", "cas eyes"), ("icon override", "override"),
  ("lot challenge", "gameplay tuning"), ("mc cmd center", "script mod"),
  ("picture frame", "buildbuy object"), ("smartphone ui", "override"),
  ("ww animations", "adult animation"), ("auto classes", "gameplay tuning"),
  ("auto-classes", "gameplay tuning"), ("cas lighting", "override"),
  ("coffee table", "buildbuy object"), ("core library", "utility tool"),
  ("default eyes", "override"), ("default skin", "override"),
  ("dining table", "buildbuy object"), ("interactions", "gameplay tuning"),
  ("lotchallenge", "gameplay tuning"), ("prostitution", "adult gameplay"),
  ("refrigerator", "buildbuy object"), ("xml injector", "utility tool"),
  ("autoclasses", "gameplay tuning"), ("club filter", "gameplay tuning"),
  ("highlighter", "cas makeup"), ("interaction", "gameplay tuning"),
  ("littlemssam", "gameplay tuning"), ("long sleeve", "cas clothing"),
  ("miscarriage", "gameplay tuning"), ("perversions", "adult gameplay"),
  ("pose player", "pose"), ("royalty mod", "gameplay tuning"),
  ("skin detail", "cas skin"), ("turbodriver", "adult gameplay"),
  ("twistedmexi", "utility tool"), ("ui override", "override"),
  ("weather app", "gameplay tuning"), ("wickedwhims", "adult gameplay"),
  ("xmlinjector", "utility tool"), (".ts4script", "script mod"),
  ("activewear", "cas clothing"), ("anal beads", "adult buildbuy"),
  ("aspiration", "gameplay tuning"), ("basemental", "adult gameplay"),
  ("club rules", "gameplay tuning"), ("dishwasher", "buildbuy object"),
  ("floor lamp", "buildbuy object"), ("foundation", "cas makeup"),
  ("industrial", "cas accessories"), ("mc command", "script mod"),
  ("nightstand", "buildbuy object"), ("schoolgirl", "cas clothing"),
  ("side table", "buildbuy object"), ("simsiphone", "override"),
  ("spectacles", "cas accessories"), ("tattoobody", "cas tattoos"),
  ("teleporter", "pose"), ("television", "buildbuy object"),
  ("weatherapp", "gameplay tuning"), ("ww anarcis", "adult animation"),
  ("alarmunit", "buildbuy object"), ("animation", "animation"),
  ("bookshelf", "buildbuy object"), ("butt plug", "adult buildbuy"),
  ("cheongsam", "cas clothing"), ("clubrules", "gameplay tuning"),
  ("end table", "buildbuy object"), ("eyeshadow", "cas makeup"),
  ("framework", "utility tool"), ("furniture", "buildbuy object"),
  ("headpiece", "cas accessories"), ("iphone ui", "override"),
  ("layer set", "adult cas"), ("lot trait", "gameplay tuning"),
  ("maglietta", "cas clothing"), ("maternita", "cas clothing"),
  ("maternità", "cas clothing"), ("microwave", "buildbuy object"),
  ("mood pack", "gameplay tuning"), ("moustache", "cas hair"),
  ("nose ring", "cas accessories"), ("phone app", "gameplay tuning"),
  ("pose pack", "pose"), ("pregnancy", "gameplay tuning"),
  ("sideburns", "cas hair"), ("smartview", "buildbuy object"),
  ("stockings", "CAS Clothing"), ("tracksuit", "cas clothing"),
  ("ts4script", "script mod"), ("ui cheats", "script mod"),
  ("ui-cheats", "script mod"), ("underwear", "cas clothing"),
  ("utilities", "gameplay tuning"), ("wall lamp", "buildbuy object"),
  ("abortion", "gameplay tuning"), ("autonomy", "gameplay tuning"),
  ("bodysuit", "cas clothing"), ("bookcase", "buildbuy object"),
  ("bracelet", "cas accessories"), ("buttplug", "adult buildbuy"),
  ("calendar", "gameplay tuning"), ("cardigan", "cas clothing"),
  ("cas pose", "pose"), ("computer", "buildbuy object"),
  ("contacts", "cas eyes"), ("creampie", "adult gameplay"),
  ("crop top", "cas clothing"), ("eargauge", "cas accessories"),
  ("eyeliner", "cas makeup"), ("freckles", "cas skin"),
  ("g-string", "adult cas"), ("interest", "gameplay tuning"),
  ("knickers", "cas clothing"), ("lapdance", "adult gameplay"),
  ("lingerie", "adult cas"), ("lip ring", "cas accessories"),
  ("lipstick", "cas makeup"), ("lottrait", "gameplay tuning"),
  ("lumpinou", "gameplay tuning"), ("moodpack", "gameplay tuning"),
  ("mustache", "cas hair"), ("necklace", "cas accessories"),
  ("overhaul", "gameplay tuning"), ("override", "override"),
  ("painting", "buildbuy object"), ("phone ui", "override"),
  ("phoneapp", "gameplay tuning"), ("piercing", "cas accessories"),
  ("pornstar", "adult cas"), ("posepack", "pose"),
  ("pregnant", "gameplay tuning"), ("recolour", "buildbuy recolour"),
  ("shelving", "buildbuy object"), ("smart tv", "buildbuy object"),
  ("stocking", "CAS Clothing"), ("strap on", "adult cas"),
  ("strap-on", "adult cas"), ("swimming", "animation"),
  ("swimsuit", "cas clothing"), ("trousers", "cas clothing"),
  ("uicheats", "script mod"), ("vibrator", "adult buildbuy"),
  ("wall art", "buildbuy object"), ("wardrobe", "buildbuy object"),
  ("wild guy", "adult gameplay"), ("wild_guy", "adult gameplay"),
  ("anarcis", "adult animation"), ("artwork", "buildbuy object"),
  ("barbell", "cas accessories"), ("bathtub", "buildbuy object"),
  ("blowjob", "adult gameplay"), ("bondage", "adult gameplay"),
  ("boobjob", "adult gameplay"), ("cabinet", "buildbuy object"),
  ("classes", "gameplay tuning"), ("clutter", "buildbuy object"),
  ("condoms", "Adult BuildBuy"), ("console", "buildbuy object"),
  ("contour", "cas makeup"), ("cosplay", "cas clothing"),
  ("counter", "buildbuy object"), ("cumshot", "adult gameplay"),
  ("curtain", "buildbuy object"), ("dresser", "buildbuy object"),
  ("earring", "cas accessories"), ("eyebrow", "cas accessories"),
  ("eyefold", "cas skin"), ("eyelash", "cas accessories"),
  ("freckle", "cas skin"), ("genital", "adult cas"),
  ("glasses", "cas accessories"), ("gstring", "adult cas"),
  ("handjob", "adult gameplay"), ("legging", "cas clothing"),
  ("library", "utility tool"), ("monitor", "buildbuy object"),
  ("moodlet", "gameplay tuning"), ("overlay", "cas skin"),
  ("pasties", "adult cas"), ("recipes", "gameplay tuning"),
  ("recolor", "buildbuy recolour"), ("retinal", "cas eyes"),
  ("royalty", "gameplay tuning"), ("sandals", "cas clothing"),
  ("sneaker", "cas clothing"), ("speaker", "buildbuy object"),
  ("strapon", "adult cas"), ("stubble", "cas hair"),
  ("sweater", "cas clothing"), ("uniform", "cas clothing"),
  ("add on", "gameplay tuning"), ("add-on", "gameplay tuning"),
  ("anklet", "cas accessories"), ("bikini", "cas clothing"),
  ("blouse", "cas clothing"), ("bottom", "cas clothing"),
  ("boxers", "cas clothing"), ("bridge", "cas accessories"),
  ("bugfix", "gameplay tuning"), ("canvas", "buildbuy object"),
  ("career", "gameplay tuning"), ("cheats", "script mod"),
  ("choker", "cas accessories"), ("collar", "cas accessories"),
  ("condom", "Adult BuildBuy"), ("eyelid", "cas skin"),
  ("fetish", "adult gameplay"), ("fridge", "buildbuy object"),
  ("goatee", "cas hair"), ("hoodie", "cas clothing"),
  ("jacket", "cas clothing"), ("kimono", "cas clothing"),
  ("labret", "cas accessories"), ("laptop", "buildbuy object"),
  ("makeup", "cas makeup"), ("mirror", "buildbuy object"),
  ("module", "gameplay tuning"), ("object", "buildbuy object"),
  ("outfit", "cas clothing"), ("poster", "buildbuy object"),
  ("preset", "preset"), ("recipe", "gameplay tuning"),
  ("reskin", "override"), ("rubber", "adult cas"),
  ("sailor", "cas clothing"), ("screen", "buildbuy object"),
  ("septum", "cas accessories"), ("shared", "utility tool"),
  ("sheath", "adult cas"), ("shorts", "cas clothing"),
  ("shower", "buildbuy object"), ("slider", "slider"),
  ("stereo", "buildbuy object"), ("swatch", "buildbuy recolour"),
  ("tattoo", "CAS Tattoos"), ("tattoo", "cas skin"),
  ("tattoo", "cas tattoos"), ("toilet", "buildbuy object"),
  ("tool v", "utility tool"), ("tuning", "gameplay tuning"),
  ("vagina", "adult cas"), ("venues", "gameplay tuning"),
  ("washer", "buildbuy object"), ("window", "buildbuy object"),
  ("addon", "gameplay tuning"), ("alarm", "buildbuy object"),
  ("anim_", "animation"), ("beard", "cas hair"),
  ("blush", "cas makeup"), ("boots", "cas clothing"),
  ("chain", "cas accessories"), ("chair", "buildbuy object"),
  ("cheat", "script mod"), ("dildo", "adult buildbuy"),
  ("dress", "cas clothing"), ("dryer", "buildbuy object"),
  ("frame", "buildbuy object"), ("gauge", "cas accessories"),
  ("glove", "cas accessories"), ("gonna", "cas clothing"),
  ("heels", "cas clothing"), ("horns", "cas accessories"),
  ("jeans", "cas clothing"), ("latex", "adult cas"),
  ("moles", "cas skin"), ("nails", "cas accessories"),
  ("naked", "adult gameplay"), ("nisak", "adult gameplay"),
  ("pants", "cas clothing"), ("patch", "gameplay tuning"),
  ("penis", "adult cas"), ("phone", "buildbuy object"),
  ("plant", "buildbuy object"), ("power", "gameplay tuning"),
  ("pupil", "cas eyes"), ("qipao", "cas clothing"),
  ("radio", "buildbuy object"), ("scars", "cas skin"),
  ("shelf", "buildbuy object"), ("shirt", "cas clothing"),
  ("shoes", "cas clothing"), ("simda", "gameplay tuning"),
  ("skirt", "cas clothing"), ("socks", "cas clothing"),
  ("stove", "buildbuy object"), ("strip", "adult gameplay"),
  ("table", "buildbuy object"), ("thong", "adult cas"),
  ("trait", "gameplay tuning"), ("venue", "gameplay tuning"),
  ("water", "gameplay tuning"), ("wings", "cas accessories"),
  ("world", "world"), ("anal", "adult gameplay"),
  ("bank", "gameplay tuning"), ("bath", "buildbuy object"),
  ("bdsm", "adult gameplay"), ("belt", "cas accessories"),
  ("bill", "gameplay tuning"), ("brow", "cas accessories"),
  ("buff", "gameplay tuning"), ("coat", "cas clothing"),
  ("cock", "adult gameplay"), ("deco", "buildbuy object"),
  ("desk", "buildbuy object"), ("door", "buildbuy object"),
  ("eyes", "cas eyes"), ("gown", "cas clothing"),
  ("hair", "cas hair"), ("hoop", "cas accessories"),
  ("horn", "cas accessories"), ("iris", "cas eyes"),
  ("jobs", "gameplay tuning"), ("lamp", "buildbuy object"),
  ("lash", "cas accessories"), ("loan", "gameplay tuning"),
  ("mask", "cas accessories"), ("mccc", "script mod"),
  ("mole", "cas skin"), ("nisa", "adult gameplay"),
  ("nsfw", "adult gameplay"), ("nude", "adult gameplay"),
  ("oral", "adult gameplay"), ("oven", "buildbuy object"),
  ("plug", "adult buildbuy"), ("porn", "adult gameplay"),
  ("pose", "pose"), ("ring", "cas accessories"),
  ("s4cl", "utility tool"), ("scar", "cas skin"),
  ("shoe", "cas clothing"), ("sink", "buildbuy object"),
  ("skin", "cas skin"), ("sofa", "buildbuy object"),
  ("stud", "cas accessories"), ("tail", "cas accessories"),
  ("tmex", "utility tool"), ("tool", "utility tool"),
  ("wing", "cas accessories"), ("api", "utility tool"),
  ("art", "buildbuy object"), ("ask", "gameplay tuning"),
  ("atm", "gameplay tuning"), ("bed", "buildbuy object"),
  ("cmd", "script mod"), ("cum", "adult gameplay"),
  ("eye", "cas eyes"), ("fix", "gameplay tuning"),
  ("job", "gameplay tuning"), ("lms", "gameplay tuning"),
  ("npc", "gameplay tuning"), ("rug", "buildbuy object"),
  ("sex", "adult gameplay"), ("top", "cas clothing"),
  ("pc", "buildbuy object"), ("tv", "buildbuy object")
]

set_option maxHeartbeats 40000000 in
/-- KW_lit is the sorted table written out; the kernel checks that the
embedded stable sort of the raw table produces exactly it, so fast
concrete evaluations can use the literal. -/
theorem KW_eq : KW = KW_lit := by decide

theorem guess_type_for_name_eval :
    guess_type_for_name = guess_type_for_name_with KW_lit := by
  unfold guess_type_for_name
  rw [KW_eq]

/-! ### Directory-hint booster (_boost_from_parent_dirs). -/

/-- Components of os.path.dirname(relpath).split(os.sep), stripped and
lowercased, empty pieces dropped, as the list comprehension does. -/
def boostParts (relpath : String) : List String :=
  ((splitChar '/' (dirname relpath).data).filter
      (fun p => !(pyStrip (String.mk p) == ""))).map
    (fun p => lowerStr (pyStrip (String.mk p)))

/-- Inner double loop of _boost_from_parent_dirs: first hint whose key
occurs in a component, scanning components in the given order. -/
def findHint : List String → Option String
  | [] => none
  | p :: rest =>
    match List.find? (fun kv => strContains p kv.1) FOLDER_HINTS with
    | some kv => some kv.2
    | none => findHint rest

/-- Models _boost_from_parent_dirs(relpath, cur). -/
def boost_from_parent_dirs (relpath : String) (cur : String × ℚ × String) :
    String × ℚ × String :=
  let cat := cur.1
  let conf := cur.2.1
  let notes := cur.2.2
  if conf ≥ mkRat 80 100 then cur
  else
    match findHint (boostParts relpath).reverse with
    | none => cur
    | some hint =>
      if cat = "Unknown" ∨ conf < mkRat 75 100 then
        ((lookupStr CANON (lowerStr hint)).getD hint, mkRat 75 100,
          pyStripSemi (notes ++ "; parent hint: " ++ hint))
      else cur

/-! ### Binary (DBPF) probe.  File contents are an oracle
bytesOf : String -> Option (List Nat): none models an unreadable or
absent file (every read there raises, and the probe catches and keeps
the current result). -/

/-- Four little-endian bytes of a type id, int.to_bytes(4, "little"). -/
def leBytes4 (t : Nat) : List Nat :=
  [t % 256, t / 256 % 256, t / 65536 % 256, t / 16777216 % 256]

/-- The bytes b"DBPF". -/
def dbpfMagic : List Nat := [68, 66, 80, 70]

/-- The preference order of type ids in guess_type_binary. -/
def PROBE_ORDER : List Nat :=
  [0x034AEECB, 0x319E4F1D, 0x0333406C, 0xEBCF4E9B, 0xA0F3F4D4,
   0x015A1849, 0x3453CF95, 0x00B2D882, 0x220557DA]

/-- Category and note for a type id in _RESOURCE_TYPE_HINTS. -/
def lookupHint (tid : Nat) : Option (String × String) :=
  (List.find? (fun h => h.1 == tid) RESOURCE_TYPE_HINTS).map (fun h => h.2)

/-- Models _scan_for_types_dbpf(path): type ids whose little-endian
byte signature occurs in the first 256 KiB or (when the file is larger
than 128 KiB) the last 128 KiB; an unreadable file yields no hits. -/
def scan_for_types_dbpf (bytesOf : String → Option (List Nat)) (path : String) :
    List Nat :=
  match bytesOf path with
  | none => []
  | some bs =>
    let size := bs.length
    let headChunk := bs.take (min 262144 size)
    let headHits := RESOURCE_TYPE_HINTS.filterMap
      (fun h => if containsList headChunk (leBytes4 h.1) then some h.1 else none)
    let tailHits :=
      if 131072 < size then
        let tailChunk := bs.drop (size - 131072)
        RESOURCE_TYPE_HINTS.filterMap
          (fun h => if containsList tailChunk (leBytes4 h.1) then some h.1 else none)
      else []
    headHits ++ tailHits

/-- Models guess_type_binary(path, current).  The winning category and
note come from the first preferred type id among the hits; its lookup
in _RESOURCE_TYPE_HINTS is composed with bind (every id in the
preference order has an entry, so the none case of the bind, like the
no-preferred-hit case it is merged with, leaves current unchanged
exactly as the Python best_cat-is-None path does). -/
def guess_type_binary (bytesOf : String → Option (List Nat)) (path : String)
    (current : String × ℚ × String) : String × ℚ × String :=
  let cat := current.1
  let conf := current.2.1
  let notes := current.2.2
  if !(strEnds (lowerStr path) ".package") then current
  else
    match bytesOf path with
    | none => current
    | some bs =>
      if bs.take 4 ≠ dbpfMagic then current
      else
        let hits := scan_for_types_dbpf bytesOf path
        if hits = [] then current
        else
          match (PROBE_ORDER.find? (fun tid => hits.contains tid)).bind lookupHint with
          | none => current
          | some bh =>
            (bh.1, max conf (if bh.1 ≠ cat then mkRat 85 100 else mkRat 80 100),
              pyStripSemi (notes ++ "; " ++ bh.2))

/-! ### Classification pipeline (classify_file over _DETECTOR_FUNCS). -/

def DEFAULT_DETECTOR_ORDER : List String := ["name", "binary", "ext"]

/-- One iteration of the detector loop in classify_file. -/
def classify_step (bytesOf : String → Option (List Nat)) (path name ext : String)
    (enable_binary : Bool) (cur : String × ℚ × String) (step : String) :
    String × ℚ × String :=
  if step = "binary" ∧ ¬ enable_binary then cur
  else
    let res? : Option (String × ℚ × String) :=
      if step = "name" then some (guess_type_for_name name ext)
      else if step = "binary" then some (guess_type_binary bytesOf path cur)
      else if step = "ext" then some (guess_type_for_name name ext)
      else none
    match res? with
    | none => cur
    | some res =>
      if res.2.1 ≥ cur.2.1 then
        (res.1, res.2.1,
          pyStripSemi (cur.2.2 ++
            (if cur.2.2 ≠ "" ∧ res.2.2 ≠ "" then "; " else "") ++ res.2.2))
      else cur

/-- Models classify_file(path, name, ext, order, enable_binary); an
empty or missing order falls back to DEFAULT_DETECTOR_ORDER exactly as
the Python or-expression does. -/
def classify_file (bytesOf : String → Option (List Nat)) (path name ext : String)
    (order : Option (List String)) (enable_binary : Bool) : String × ℚ × String :=
  let ord := match order with
    | none => DEFAULT_DETECTOR_ORDER
    | some l => if l = [] then DEFAULT_DETECTOR_ORDER else l
  ord.foldl (classify_step bytesOf path name ext enable_binary) ("Unknown", mkRat 0 1, "")

/-! ### Date extraction for collision decisions.  The four regular
expressions in _DATE_PATTERNS are compiled by hand into candidate
enumerators; each enumerator lists the parses at one position in the
preference order of the regex engine (leftmost alternative first,
greedy optional separators), and the search scans positions left to
right, so the first element found is exactly re.search's match. -/

/-- Separator class of patterns 1 and 2. -/
def isSep1 (c : Char) : Bool := c == '.' || c == '_' || c == '-' || c == ' '

/-- Separator class of patterns 3 and 4 (ASCII whitespace plus dot,
underscore, dash). -/
def isSepWs (c : Char) : Bool :=
  isPySpace c || c == '.' || c == '_' || c == '-'

/-- Decimal digit value of a character, when it is a digit. -/
def digitQ : Char → Option Nat
  | c => if '0' ≤ c ∧ c ≤ '9' then some (c.toNat - 48) else none

/-- Matches the year group 20 followed by two digits. -/
def matchY : List Char → List (Nat × List Char)
  | '2' :: '0' :: a :: b :: rest =>
    match digitQ a, digitQ b with
    | some d1, some d2 => [(2000 + 10 * d1 + d2, rest)]
    | _, _ => []
  | _ => []

/-- Matches the month group, alternatives in regex order. -/
def matchM (cs : List Char) : List (Nat × List Char) :=
  (match cs with
    | '0' :: c :: rest =>
      match digitQ c with
      | some d => if 1 ≤ d then [(d, rest)] else []
      | none => []
    | _ => []) ++
  (match cs with
    | c :: rest =>
      match digitQ c with
      | some d => if 1 ≤ d then [(d, rest)] else []
      | none => []
    | _ => []) ++
  (match cs with
    | '1' :: c :: rest =>
      match digitQ c with
      | some d => if d ≤ 2 then [(10 + d, rest)] else []
      | none => []
    | _ => [])

/-- Matches the day group, alternatives in regex order. -/
def matchD (cs : List Char) : List (Nat × List Char) :=
  (match cs with
    | '0' :: c :: rest =>
      match digitQ c with
      | some d => if 1 ≤ d then [(d, rest)] else []
      | none => []
    | _ => []) ++
  (match cs with
    | c :: rest =>
      match digitQ c with
      | some d => if 1 ≤ d then [(d, rest)] else []
      | none => []
    | _ => []) ++
  (match cs with
    | a :: c :: rest =>
      if a == '1' || a == '2' then
        match digitQ c with
        | some d => [((if a == '1' then 10 else 20) + d, rest)]
        | none => []
      else []
    | _ => []) ++
  (match cs with
    | '3' :: c :: rest =>
      match digitQ c with
      | some d => if d ≤ 1 then [(30 + d, rest)] else []
      | none => []
    | _ => [])

/-- Optional separator, greedy: consuming it is preferred. -/
def sepOpt (cls : Char → Bool) : List Char → List (List Char)
  | [] => [[]]
  | c :: rest => if cls c then [rest, c :: rest] else [c :: rest]

/-- Required separator. -/
def sepReq (cls : Char → Bool) : List Char → List (List Char)
  | [] => []
  | c :: rest => if cls c then [rest] else []

/-- Month-name alternatives of the regex, in alternation order, with
the month number that _MONTH assigns to the first three letters. -/
def monAlts : List (String × Nat) :=
  [("jan", 1), ("feb", 2), ("mar", 3), ("apr", 4), ("may", 5), ("jun", 6),
   ("jul", 7), ("aug", 8), ("sep", 9), ("sept", 9), ("oct", 10), ("nov", 11),
   ("dec", 12)]

/-- Matches the month-name group. -/
def matchMon (cs : List Char) : List (Nat × List Char) :=
  monAlts.filterMap (fun mv =>
    if leadsList mv.1.data cs then some (mv.2, cs.drop mv.1.data.length) else none)

/-- Length of the leading run of lowercase letters. -/
def alphaRun : List Char → Nat
  | c :: rest => if 'a' ≤ c ∧ c ≤ 'z' then alphaRun rest + 1 else 0
  | [] => 0

/-- The greedy group of lowercase letters, longest consumption first. -/
def alphaStar (cs : List Char) : List (List Char) :=
  let n := alphaRun cs
  (List.range (n + 1)).map (fun i => cs.drop (n - i))

/-- Parses of pattern 1 (year month day, optional separators) at one
position, best first. -/
def p1At (cs : List Char) : List (Nat × Nat × Nat) :=
  (matchY cs).flatMap (fun yr =>
    (sepOpt isSep1 yr.2).flatMap (fun r2 =>
      (matchM r2).flatMap (fun mr =>
        (sepOpt isSep1 mr.2).flatMap (fun r4 =>
          (matchD r4).map (fun dr => (yr.1, mr.1, dr.1))))))

/-- Parses of pattern 2 (day month year, required separators). -/
def p2At (cs : List Char) : List (Nat × Nat × Nat) :=
  (matchD cs).flatMap (fun dr =>
    (sepReq isSep1 dr.2).flatMap (fun r2 =>
      (matchM r2).flatMap (fun mr =>
        (sepReq isSep1 mr.2).flatMap (fun r4 =>
          (matchY r4).map (fun yr => (yr.1, mr.1, dr.1))))))

/-- Parses of pattern 3 (day month-name year). -/
def p3At (cs : List Char) : List (Nat × Nat × Nat) :=
  (matchD cs).flatMap (fun dr =>
    (sepOpt isSepWs dr.2).flatMap (fun r2 =>
      (matchMon r2).flatMap (fun mr =>
        (alphaStar mr.2).flatMap (fun r3 =>
          (sepOpt isSepWs r3).flatMap (fun r4 =>
            (matchY r4).map (fun yr => (yr.1, mr.1, dr.1)))))))

/-- Parses of pattern 4 (month-name day year). -/
def p4At (cs : List Char) : List (Nat × Nat × Nat) :=
  (matchMon cs).flatMap (fun mr =>
    (alphaStar mr.2).flatMap (fun r2 =>
      (sepOpt isSepWs r2).flatMap (fun r3 =>
        (matchD r3).flatMap (fun dr =>
          (sepOpt isSepWs dr.2).flatMap (fun r4 =>
            (matchY r4).map (fun yr => (yr.1, mr.1, dr.1)))))))

/-- re.search: leftmost position first, preference order within one
position. -/
def searchPat (pAt : List Char → List (Nat × Nat × Nat)) :
    List Char → Option (Nat × Nat × Nat)
  | [] => (pAt []).head?
  | c :: rest =>
    match (pAt (c :: rest)).head? with
    | some v => some v
    | none => searchPat pAt rest

/-- Gregorian leap year. -/
def isLeap (y : Nat) : Bool := (y % 4 == 0 && !(y % 100 == 0)) || y % 400 == 0

/-- Days in a month. -/
def daysInMonth (y m : Nat) : Nat :=
  if m = 2 then (if isLeap y then 29 else 28)
  else if m = 4 ∨ m = 6 ∨ m = 9 ∨ m = 11 then 30
  else 31

/-- Days from 1970-01-01 to y-m-d (valid dates from 1970 on). -/
def daysSinceEpoch (y m d : Nat) : Nat :=
  ((List.range (y - 1970)).map (fun i => if isLeap (1970 + i) then 366 else 365)).sum +
    ((List.range (m - 1)).map (fun i => daysInMonth y (i + 1))).sum + (d - 1)

/-- datetime(y, m, d, 12, 0, 0).timestamp() at UTC offset zero: any
fixed offset shifts every parsed date equally and none of the claims
depend on the absolute value. -/
def dtTimestamp (y m d : Nat) : ℚ :=
  mkRat (daysSinceEpoch y m d * 86400 + 43200) 1

/-- Pattern loop of _parse_date_from_name: first pattern that matches
somewhere and yields a calendar-valid date wins; an invalid date (the
datetime constructor raising) falls through to the next pattern. -/
def tryPats : List (List Char → List (Nat × Nat × Nat)) → List Char → Option ℚ
  | [], _ => none
  | p :: rest, s =>
    match searchPat p s with
    | some ymd =>
      if 1 ≤ ymd.2.2 ∧ ymd.2.2 ≤ daysInMonth ymd.1 ymd.2.1 then
        some (dtTimestamp ymd.1 ymd.2.1 ymd.2.2)
      else tryPats rest s
    | none => tryPats rest s

/-- Models _parse_date_from_name(name). -/
def parse_date_from_name (name : String) : Option ℚ :=
  tryPats [p1At, p2At, p3At, p4At] (lowerStr name).data

/-! ### best_date_for_file and plan_collisions.  Filesystem metadata
is carried by a record: zip-ness and internal entry timestamps stand
for zipfile inspection, and mtime/ctime are none when the stat call
would raise. -/

structure DiskFile where
  path : String
  isZip : Bool
  zipTimes : List ℚ
  mtime : Option ℚ
  ctime : Option ℚ
deriving Repr

/-- Models _date_from_zip: newest internal timestamp of a zip file,
none for a non-zip or entry-less file. -/
def date_from_zip (f : DiskFile) : Option ℚ :=
  if ¬ f.isZip then none
  else f.zipTimes.foldl
    (fun latest ts =>
      match latest with
      | none => some ts
      | some l => if ts > l then some ts else some l) none

/-- Python float truthiness of an optional timestamp: present and
nonzero. -/
def truthyQ : Option ℚ → Bool
  | some t => decide (t ≠ 0)
  | none => false

/-- Models best_date_for_file(path). -/
def best_date_for_file (f : DiskFile) : ℚ × String :=
  let ts1 := parse_date_from_name (basename f.path)
  if truthyQ ts1 then (ts1.getD (mkRat 0 1), "filename")
  else
    let ts2 := date_from_zip f
    if truthyQ ts2 then (ts2.getD (mkRat 0 1), "zip")
    else
      if truthyQ f.mtime ∧ truthyQ f.ctime then
        (if f.mtime.getD (mkRat 0 1) ≥ f.ctime.getD (mkRat 0 1) then
          (f.mtime.getD (mkRat 0 1), "mtime")
        else (f.ctime.getD (mkRat 0 1), "ctime"))
      else if truthyQ f.mtime then (f.mtime.getD (mkRat 0 1), "mtime")
      else if truthyQ f.ctime then (f.ctime.getD (mkRat 0 1), "ctime")
      else (mkRat 0 1, "unknown")

structure CollisionPlanEntry where
  src : String
  dst : String
  srcTs : ℚ
  dstTs : ℚ
  older : String
  protect : Bool
deriving Repr

/-- Models plan_collisions(collisions) given the metadata of each
path. -/
def plan_collisions (metaOf : String → DiskFile)
    (collisions : List (String × String × String)) : List CollisionPlanEntry :=
  collisions.map (fun c =>
    let sTs := (best_date_for_file (metaOf c.1)).1
    let dTs := (best_date_for_file (metaOf c.2.1)).1
    { src := c.1, dst := c.2.1, srcTs := sTs, dstTs := dTs,
      older := if sTs = dTs then "src" else if sTs < dTs then "src" else "dst",
      protect := true })

/-! ### Scanner support (detect_real_ext, slot routing, folder map,
size prettifier). -/

/-- Models detect_real_ext(name). -/
def detect_real_ext (name : String) : String × Bool :=
  let low := lowerStr name
  let disabled := strEnds low ".off" || strEnds low ".disabled"
  let base :=
    if disabled then
      (if strEnds low ".off" then String.mk (low.data.take (low.data.length - 4))
       else String.mk (low.data.take (low.data.length - 9)))
    else low
  ((splitext base).2, disabled)

/-- Models route_slot_for_category(cat). -/
def route_slot_for_category (cat : String) : String :=
  let c := lowerStr cat
  if strContains c "ui cheat" then "UI Cheats"
  else if ["cas", "adult - cas", "makeup", "eyes", "skin", "tattoo", "hair",
      "accessor"].any (fun k => strContains c k) then "CAS"
  else if strContains c "build/buy" || strContains c "build buy" ||
      strContains c "build" || strContains c "recolour" ||
      strContains c "recolor" || strContains c "object" then "Build Mode"
  else if strContains c "animation" || strContains c "pose" then "Animations"
  else if ["script", "utility", "framework", "library"].any
      (fun k => strContains c k) then "MCC"
  else "Gameplay"

/-- Models map_type_to_folder(cat, folder_map, folder_slots); a None
or empty dict is falsy in the Python conditionals. -/
def map_type_to_folder (cat : String) (folder_map folder_slots :
    Option (List (String × String))) : String :=
  if (match folder_slots with | some l => !l.isEmpty | none => false) then
    let slot := route_slot_for_category cat
    (lookupStr (folder_slots.getD []) slot).getD slot
  else
    let fm := match folder_map with
      | none => DEFAULT_FOLDER_MAP
      | some l => if l.isEmpty then DEFAULT_FOLDER_MAP else l
    (lookupStr fm cat).getD ((lookupStr fm "Gameplay Mods").getD "Gameplay")

/-- Python round-half-to-even of a rational to an integer. -/
def roundHalfEven (q : ℚ) : ℤ :=
  let f := q.floor
  let rem := q.num - f * (q.den : ℤ)
  if 2 * rem < (q.den : ℤ) then f
  else if (q.den : ℤ) < 2 * rem then f + 1
  else if f % 2 = 0 then f else f + 1

/-- Models human_mb(size_bytes) = round(bytes / 2^20, 2), in exact
arithmetic. -/
def human_mb (sizeBytes : Nat) : ℚ :=
  mkRat (roundHalfEven (mkRat (sizeBytes * 100) 1048576)) 100

/-- Models the FileItem dataclass; the include field is spelled
include_ because include is a Lean keyword. -/
structure FileItem where
  path : String
  name : String
  ext : String
  size_mb : ℚ
  relpath : String
  guess_type : String
  confidence : ℚ
  notes : String
  include_ : Bool
  target_folder : String
deriving Repr, DecidableEq

/-- Models os.path.relpath(p, root) for files under root, the only
call shape in scope. -/
def relpathUnder (p root : String) : String :=
  if strStarts p (root ++ "/") then String.mk (p.data.drop (root.data.length + 1))
  else p

/-! ### Scanner.  The directory walk and the per-file stat are
environment effects: files lists the walk enumeration (path and
content bytes, in walk order), and failing gives the exception message
when os.path.getsize in scan_folder raises for a path (a file that
vanished between the walk and the stat) -- the one per-file raise
point this model exercises, every raise point landing in the same
except branch. -/

structure ScanEnv where
  files : List (String × List Nat)
  failing : String → Option String

/-- File contents oracle derived from the environment. -/
def envBytes (env : ScanEnv) (p : String) : Option (List Nat) :=
  (env.files.find? (fun e => e.1 == p)).map (fun e => e.2)

/-- Models the os.walk enumeration in scan_folder: all walked files
under root when recursing, only the direct children otherwise. -/
def walkFiles (root : String) (recurse : Bool) (env : ScanEnv) : List String :=
  if recurse then (env.files.map (fun e => e.1)).filter (fun p => strStarts p (root ++ "/"))
  else (env.files.map (fun e => e.1)).filter (fun p => dirname p == root)

/-- Index of a string in a list (first occurrence; callers guard
membership as the Python code does before list.index). -/
def indexOfStr : List String → String → Nat
  | [], _ => 0
  | s :: rest, x => if s = x then 0 else indexOfStr rest x + 1

/-- Sort key comparison of scan_folder's final out.sort. -/
def scanSortLt (a b : FileItem) : Bool :=
  let ka := if CATEGORY_ORDER.contains a.guess_type then
    indexOfStr CATEGORY_ORDER a.guess_type else 999
  let kb := if CATEGORY_ORDER.contains b.guess_type then
    indexOfStr CATEGORY_ORDER b.guess_type else 999
  let da := lowerStr (dirname a.relpath)
  let db := lowerStr (dirname b.relpath)
  decide (ka < kb) ||
    (ka == kb && (strLt da db ||
      (da == db && strLt (lowerStr a.name) (lowerStr b.name))))

/-- Per-file loop of scan_folder; aside from the FileItem list it also
returns the progress-callback invocations (done, total, path, status)
in call order. -/
def scanGo (env : ScanEnv) (root : String)
    (folder_map : Option (List (String × String)))
    (ignore_exts : List String) (ignore_name_contains : List String)
    (detector_order : Option (List String)) (use_binary_scan : Bool)
    (folder_slots : Option (List (String × String))) (total : Nat) :
    Nat → List String → List FileItem × List (Nat × Nat × String × String)
  | _, [] => ([], [])
  | i, fpath :: rest =>
    let acc := scanGo env root folder_map ignore_exts ignore_name_contains
      detector_order use_binary_scan folder_slots total (i + 1) rest
    let fname := basename fpath
    let low := lowerStr fname
    let ed := detect_real_ext fname
    let ext := if ed.1 ≠ "" ∧ ¬ strStarts ed.1 "." then "." ++ ed.1 else ed.1
    if ignore_exts.contains ext then
      (acc.1, (i, total, fpath, "ignored_ext") :: acc.2)
    else if ignore_name_contains.any (fun tok => strContains low tok) then
      (acc.1, (i, total, fpath, "ignored_name") :: acc.2)
    else
      match env.failing fpath with
      | some msg =>
        ({ path := fpath, name := basename fpath,
           ext := lowerStr (splitext fpath).2,
           size_mb := mkRat 0 1, relpath := relpathUnder fpath root,
           guess_type := "Unknown", confidence := mkRat 0 1,
           notes := "scan error: " ++ msg, include_ := false,
           target_folder := map_type_to_folder "Unknown" folder_map folder_slots }
          :: acc.1,
         (i, total, fpath, "error") :: acc.2)
      | none =>
        let cls := classify_file (envBytes env) fpath fname ext detector_order
          use_binary_scan
        let rel := relpathUnder fpath root
        let boosted := boost_from_parent_dirs rel cls
        let notes2 :=
          if ed.2 then pyStripSemi (boosted.2.2 ++ "; disabled (.off)") else boosted.2.2
        ({ path := fpath, name := fname, ext := ext,
           size_mb := human_mb ((envBytes env fpath).getD []).length,
           relpath := rel, guess_type := boosted.1, confidence := boosted.2.1,
           notes := notes2, include_ := !ed.2,
           target_folder := map_type_to_folder boosted.1 folder_map folder_slots }
          :: acc.1,
         (i, total, fpath, "ok") :: acc.2)

/-- Models scan_folder(root, ...): walks, classifies, and returns the
items in the stable sort order of the source, paired with the progress
events. -/
def scan_folder (env : ScanEnv) (root : String)
    (folder_map : Option (List (String × String)))
    (recurse : Bool)
    (ignore_exts : List String)
    (ignore_name_contains : List String)
    (detector_order : Option (List String))
    (use_binary_scan : Bool)
    (folder_slots : Option (List (String × String))) :
    List FileItem × List (Nat × Nat × String × String) :=
  let files := walkFiles root recurse env
  let acc := scanGo env root folder_map ignore_exts ignore_name_contains
    detector_order use_binary_scan folder_slots files.length 1 files
  (pySorted scanSortLt acc.1, acc.2)

/-! ### Move executor, move log, undo, and collision apply. -/

/-- One logged move, the {"from": ..., "to": ...} dict (src is from,
dst is to; from is a Lean keyword). -/
structure MoveOp where
  src : String
  dst : String
deriving Repr, DecidableEq

/-- Loop of perform_moves; shutil.move on a missing source raises,
which aborts the whole batch, hence the Except. -/
def performGo (mods_root : String) :
    List FileItem → FS → Nat → Nat → List (String × String × String) →
    List MoveOp →
    Except String (Nat × Nat × List (String × String × String) × List MoveOp × FS)
  | [], fs, moved, skipped, cols, logs => .ok (moved, skipped, cols, logs, fs)
  | it :: rest, fs, moved, skipped, cols, logs =>
    if ¬ it.include_ then
      performGo mods_root rest fs moved (skipped + 1) cols logs
    else
      let dest := joinPath (joinPath mods_root it.target_folder) it.name
      if existsFS fs dest then
        performGo mods_root rest fs moved skipped
          (cols ++ [(it.path, dest, "name collision")]) logs
      else
        let dest2 := unique_path fs dest
        match findFS fs it.path with
        | none => .error ("shutil.move: no such file " ++ it.path)
        | some _ =>
          performGo mods_root rest (moveFS fs it.path dest2) (moved + 1) skipped
            cols (logs ++ [⟨it.path, dest2⟩])

/-- Models perform_moves(items, mods_root): moves included items to
root/targetFolder/name, collecting collisions and the move log. -/
def perform_moves (items : List FileItem) (mods_root : String) (fs : FS) :
    Except String (Nat × Nat × List (String × String × String) × List MoveOp × FS) :=
  performGo mods_root items fs 0 0 [] []

/-- One timestamped batch in the move-log JSON. -/
structure LogBatch where
  ts : ℚ
  ops : List MoveOp
deriving Repr, DecidableEq

/-- Models save_moves_log(mods_root, logs) acting on the parsed log
file state: none is a missing file, and an unreadable file is read as
the empty array. -/
def save_moves_log (logs : List MoveOp) (t : ℚ) (log : Option (List LogBatch)) :
    Option (List LogBatch) :=
  if logs = [] then log
  else some (log.getD [] ++ [⟨t, logs⟩])

/-- Models undo_last_move(mods_root): pops the most recent batch,
replays its ops in reverse (skipping ops whose destination is gone),
rewrites the log, and reports the count. -/
def undo_last_move (fs : FS) (log : Option (List LogBatch)) :
    String × FS × Option (List LogBatch) :=
  match log with
  | none => ("No move log found.", fs, none)
  | some data =>
    match data.getLast? with
    | none => ("Move log empty.", fs, some data)
    | some lastB =>
      let rem := data.dropLast
      let fin := lastB.ops.reverse.foldl
        (fun acc op =>
          if op.dst = "" ∨ ¬ existsFS acc.1 op.dst then acc
          else (moveFS acc.1 op.dst op.src, acc.2 + 1)) (fs, 0)
      ("Undid " ++ Nat.repr fin.2 ++ " file(s).", fin.1, some rem)

/-- The quarantine folder name. -/
def COLLIDING_DIR_NAME : String := "Colliding Mods"

/-- Path components with empty pieces dropped, for commonpath. -/
def pathComponents (s : String) : List (List Char) :=
  (splitChar '/' s.data).filter (fun c => !c.isEmpty)

/-- Longest common prefix of two lists. -/
def commonPrefix [DecidableEq α] : List α → List α → List α
  | a :: as, b :: bs => if a = b then a :: commonPrefix as bs else []
  | _, _ => []

/-- Models os.path.commonpath([a, b]) on normalised paths; none is the
ValueError on mixing absolute and relative paths (caught by the
caller). -/
def commonpath2 (a b : String) : Option String :=
  if (strStarts a "/") ≠ (strStarts b "/") then none
  else
    let common := (commonPrefix (pathComponents a) (pathComponents b)).map String.mk
    if strStarts a "/" then some ("/" ++ String.intercalate "/" common)
    else some (String.intercalate "/" common)

/-- The commonpath-startswith sanity test of _col_apply for one path
(abspath is the identity on the normalised absolute paths modelled
here). -/
def insideCheck (mods p : String) : Option Bool :=
  (commonpath2 mods p).map (fun c => strStarts c mods)

/-- One iteration of the _col_apply loop: quarantine the older file
under Colliding Mods, then, when the destination side was older, move
the source into the vacated destination. -/
def colApplyCase (mods colliding_dir : String) (fs : FS) (ops : List MoveOp)
    (p : CollisionPlanEntry) : FS × List MoveOp :=
  if p.src = "" ∨ p.dst = "" then (fs, ops)
  else
    let older_path := if p.older = "src" then p.src else p.dst
    let newer_path := if p.older = "src" then p.dst else p.src
    let skip : Bool :=
      match insideCheck mods older_path with
      | none => false
      | some false => true
      | some true =>
        match insideCheck mods newer_path with
        | none => false
        | some false => true
        | some true => false
    if skip then (fs, ops)
    else if older_path = newer_path then (fs, ops)
    else
      let step1 : FS × List MoveOp :=
        if existsFS fs older_path then
          let quarantine := uniq_name_in fs colliding_dir (basename older_path)
          (moveFS fs older_path quarantine, ops ++ [⟨older_path, quarantine⟩])
        else (fs, ops)
      if p.older = "dst" ∧ existsFS step1.1 p.src then
        let final_dst :=
          if existsFS step1.1 p.dst then
            uniq_name_in step1.1 (dirname p.dst) (basename p.dst)
          else p.dst
        (moveFS step1.1 p.src final_dst, step1.2 ++ [⟨p.src, final_dst⟩])
      else step1

/-- Models the move loop of _col_apply(self): processes the collision
plan in order against the filesystem and returns the final filesystem
with the move ops that save_moves_log then appends (the GUI logging
and the post-resolve tidy pass are outside this model). -/
def col_apply (mods : String) (plan : List CollisionPlanEntry) (fs : FS) :
    FS × List MoveOp :=
  plan.foldl
    (fun acc p => colApplyCase mods (joinPath mods COLLIDING_DIR_NAME) acc.1 acc.2 p)
    (fs, [])

/-! ### Support lemmas. -/

theorem existsFS_false_iff (fs : FS) (p : String) :
    existsFS fs p = false ↔ findFS fs p = none := by
  unfold existsFS
  cases findFS fs p <;> simp

theorem joinPath_ne_empty (a b : String) : joinPath a b ≠ "" := by
  intro h
  have := congrArg String.length h
  rw [joinPath, String.length_append, String.length_append] at this
  have h1 : ("/" : String).length = 1 := rfl
  have h2 : ("" : String).length = 0 := rfl
  omega

theorem mem_insertSorted (lt : α → α → Bool) (x y : α) (l : List α) :
    y ∈ insertSorted lt x l ↔ y = x ∨ y ∈ l := by
  induction l with
  | nil => simp [insertSorted]
  | cons z rest ih =>
    by_cases h : lt z x
    · rw [show insertSorted lt x (z :: rest) = z :: insertSorted lt x rest by
        simp [insertSorted, h]]
      simp only [List.mem_cons, ih]
      tauto
    · rw [show insertSorted lt x (z :: rest) = x :: z :: rest by
        simp [insertSorted, h]]
      simp only [List.mem_cons]

theorem mem_pySorted (lt : α → α → Bool) (x : α) (l : List α) :
    x ∈ pySorted lt l ↔ x ∈ l := by
  induction l with
  | nil => simp [pySorted]
  | cons z rest ih =>
    simp only [pySorted, mem_insertSorted, List.mem_cons, ih]

theorem find?_congr_mem (p q : α → Bool) (l : List α)
    (h : ∀ x ∈ l, p x = q x) : List.find? p l = List.find? q l := by
  induction l with
  | nil => rfl
  | cons a rest ih =>
    have ha := h a (List.mem_cons_self a rest)
    rw [List.find?, List.find?, ha]
    cases q a
    · exact ih (fun x hx => h x (List.mem_cons_of_mem a hx))
    · rfl

/-! ### C5: the directory-hint booster. -/

/-- C5, counterexample: on input category "Unknown" with confidence
0.78 (below the 0.80 guard but above 0.75) and a hint-bearing parent
directory, the booster lowers the confidence to 0.75, so it does not
hold that the result confidence is never below the input. -/
theorem boost_lowers_confidence_at_unknown_078 :
    (boost_from_parent_dirs "hair/x.package" ("Unknown", mkRat 78 100, "")).2.1 <
      mkRat 78 100 ∧
    boost_from_parent_dirs "hair/x.package" ("Unknown", mkRat 78 100, "") =
      ("CAS Hair", mkRat 75 100, "parent hint: CAS Hair") := by
  constructor
  · have h : boost_from_parent_dirs "hair/x.package" ("Unknown", mkRat 78 100, "") =
        ("CAS Hair", mkRat 75 100, "parent hint: CAS Hair") := by decide
    rw [h]
    decide
  · decide

/-- C5, amended: the booster returns the input unchanged whenever the
input confidence is at least 0.80; the result confidence is always
either the input confidence or exactly 0.75; and when the input
category is not "Unknown" the confidence never decreases.  (The
original claim fails only for category "Unknown" with confidence
strictly between 0.75 and 0.80, which the counterexample exhibits.) -/
theorem boost_from_parent_dirs_amended (rel cat : String) (conf : ℚ) (notes : String) :
    (conf ≥ mkRat 80 100 →
      boost_from_parent_dirs rel (cat, conf, notes) = (cat, conf, notes)) ∧
    ((boost_from_parent_dirs rel (cat, conf, notes)).2.1 = conf ∨
      (boost_from_parent_dirs rel (cat, conf, notes)).2.1 = mkRat 75 100) ∧
    (cat ≠ "Unknown" → conf ≤ (boost_from_parent_dirs rel (cat, conf, notes)).2.1) := by
  have beval : boost_from_parent_dirs rel (cat, conf, notes) =
      if conf ≥ mkRat 80 100 then (cat, conf, notes)
      else match findHint (boostParts rel).reverse with
        | none => (cat, conf, notes)
        | some hint =>
          if cat = "Unknown" ∨ conf < mkRat 75 100 then
            ((lookupStr CANON (lowerStr hint)).getD hint, mkRat 75 100,
              pyStripSemi (notes ++ "; parent hint: " ++ hint))
          else (cat, conf, notes) := rfl
  by_cases h80 : conf ≥ mkRat 80 100
  · have hb : boost_from_parent_dirs rel (cat, conf, notes) = (cat, conf, notes) := by
      rw [beval, if_pos h80]
    rw [hb]
    exact ⟨fun _ => rfl, Or.inl rfl, fun _ => le_refl conf⟩
  · cases hh : findHint (boostParts rel).reverse with
    | none =>
      have hb : boost_from_parent_dirs rel (cat, conf, notes) = (cat, conf, notes) := by
        rw [beval, if_neg h80, hh]
      rw [hb]
      exact ⟨fun hc => absurd hc h80, Or.inl rfl, fun _ => le_refl conf⟩
    | some hint =>
      by_cases hcond : cat = "Unknown" ∨ conf < mkRat 75 100
      · have hb : boost_from_parent_dirs rel (cat, conf, notes) =
            ((lookupStr CANON (lowerStr hint)).getD hint, mkRat 75 100,
              pyStripSemi (notes ++ "; parent hint: " ++ hint)) := by
          rw [beval, if_neg h80, hh]
          exact if_pos hcond
        rw [hb]
        refine ⟨fun hc => absurd hc h80, Or.inr rfl, fun hcat => ?_⟩
        rcases hcond with hcu | hlt
        · exact absurd hcu hcat
        · exact le_of_lt hlt
      · have hb : boost_from_parent_dirs rel (cat, conf, notes) = (cat, conf, notes) := by
          rw [beval, if_neg h80, hh]
          exact if_neg hcond
        rw [hb]
        exact ⟨fun hc => absurd hc h80, Or.inl rfl, fun _ => le_refl conf⟩

/-- C5 witness: at a strong input (0.90) the booster is the identity,
and at a non-Unknown weak input (0.60) the confidence does not
drop. -/
theorem boost_from_parent_dirs_amended_witness :
    boost_from_parent_dirs "hair/x.package" ("Gameplay Mods", mkRat 9 10, "") =
      ("Gameplay Mods", mkRat 9 10, "") ∧
    mkRat 6 10 ≤ (boost_from_parent_dirs "hair/x.package" ("Other", mkRat 6 10, "")).2.1 := by
  constructor
  · exact (boost_from_parent_dirs_amended "hair/x.package" "Gameplay Mods"
      (mkRat 9 10) "").1 (by decide)
  · exact (boost_from_parent_dirs_amended "hair/x.package" "Other"
      (mkRat 6 10) "").2.2 (by decide)

/-! ### C6: the binary probe. -/

theorem guess_type_binary_eval (B : String → Option (List Nat)) (p : String)
    (c : String × ℚ × String) :
    guess_type_binary B p c =
      if !(strEnds (lowerStr p) ".package") then c
      else match B p with
        | none => c
        | some bs =>
          if bs.take 4 ≠ dbpfMagic then c
          else
            if scan_for_types_dbpf B p = [] then c
            else
              match (PROBE_ORDER.find?
                  (fun tid => (scan_for_types_dbpf B p).contains tid)).bind lookupHint with
              | none => c
              | some bh =>
                (bh.1, max c.2.1 (if bh.1 ≠ c.1 then mkRat 85 100 else mkRat 80 100),
                  pyStripSemi (c.2.2 ++ "; " ++ bh.2)) := rfl

theorem guess_type_binary_eval2 (B : String → Option (List Nat)) (p : String)
    (c : String × ℚ × String) (bs : List Nat) (hB : B p = some bs)
    (h1 : strEnds (lowerStr p) ".package" = true) :
    guess_type_binary B p c =
      if bs.take 4 ≠ dbpfMagic then c
      else
        if scan_for_types_dbpf B p = [] then c
        else
          match (PROBE_ORDER.find?
              (fun tid => (scan_for_types_dbpf B p).contains tid)).bind lookupHint with
          | none => c
          | some bh =>
            (bh.1, max c.2.1 (if bh.1 ≠ c.1 then mkRat 85 100 else mkRat 80 100),
              pyStripSemi (c.2.2 ++ "; " ++ bh.2)) := by
  rw [guess_type_binary_eval, h1, hB]
  rfl

/-- Either the probe is the identity on every current result (no
package extension, unreadable file, no magic, no signature hit), or
there is one winning signature and the probe maps every current result
the same way. -/
theorem probe_shape (B : String → Option (List Nat)) (p : String) :
    (∀ c, guess_type_binary B p c = c) ∨
    ∃ bh : String × String, ∀ c : String × ℚ × String,
      guess_type_binary B p c =
        (bh.1, max c.2.1 (if bh.1 ≠ c.1 then mkRat 85 100 else mkRat 80 100),
          pyStripSemi (c.2.2 ++ "; " ++ bh.2)) := by
  cases h1 : strEnds (lowerStr p) ".package" with
  | false => exact Or.inl (fun c => by rw [guess_type_binary_eval, h1]; simp)
  | true =>
    cases hB : B p with
    | none => exact Or.inl (fun c => by rw [guess_type_binary_eval, h1, hB]; simp)
    | some bs =>
      by_cases h4 : bs.take 4 ≠ dbpfMagic
      · exact Or.inl (fun c => by
          rw [guess_type_binary_eval2 B p c bs hB h1, if_pos h4])
      · by_cases hh : scan_for_types_dbpf B p = []
        · exact Or.inl (fun c => by
            rw [guess_type_binary_eval2 B p c bs hB h1, if_neg h4, if_pos hh])
        · cases hf : (PROBE_ORDER.find?
              (fun tid => (scan_for_types_dbpf B p).contains tid)).bind lookupHint with
          | none =>
            exact Or.inl (fun c => by
              rw [guess_type_binary_eval2 B p c bs hB h1, if_neg h4, if_neg hh, hf])
          | some bh =>
            exact Or.inr ⟨bh, fun c => by
              rw [guess_type_binary_eval2 B p c bs hB h1, if_neg h4, if_neg hh, hf]⟩

/-- C6, amended: on an unchanged file the probe is idempotent in the
category and confidence components; only the reason text can differ
(the counterexample shows it gains the signature note again). -/
theorem guess_type_binary_idem_cat_conf (B : String → Option (List Nat))
    (p : String) (c : String × ℚ × String) :
    (guess_type_binary B p (guess_type_binary B p c)).1 =
      (guess_type_binary B p c).1 ∧
    (guess_type_binary B p (guess_type_binary B p c)).2.1 =
      (guess_type_binary B p c).2.1 := by
  rcases probe_shape B p with h | ⟨bh, h⟩
  · rw [h c, h c]
    exact ⟨rfl, rfl⟩
  · have e1 := h c
    have e2 := h (guess_type_binary B p c)
    rw [e1] at e2
    rw [e1, e2]
    refine ⟨rfl, ?_⟩
    have hY : (if bh.1 ≠ bh.1 then mkRat 85 100 else mkRat 80 100) = mkRat 80 100 :=
      if_neg (fun hne => hne rfl)
    show max (max c.2.1 (if bh.1 ≠ c.1 then mkRat 85 100 else mkRat 80 100))
        (if bh.1 ≠ bh.1 then mkRat 85 100 else mkRat 80 100) =
      max c.2.1 (if bh.1 ≠ c.1 then mkRat 85 100 else mkRat 80 100)
    rw [hY]
    apply max_eq_left
    have hX : mkRat 80 100 ≤ (if bh.1 ≠ c.1 then mkRat 85 100 else mkRat 80 100) := by
      by_cases hbc : bh.1 ≠ c.1
      · rw [if_pos hbc]; decide
      · rw [if_neg hbc]
    exact le_trans hX (le_max_right _ _)

/-- Concrete file contents for the C6 counterexample: a DBPF package
whose head contains the CASP signature. -/
def probeBytesCX : String → Option (List Nat) := fun p =>
  if p = "/m/a.package" then some (dbpfMagic ++ leBytes4 0x034AEECB) else none

/-- C6, counterexample: probing twice is not the same as probing once,
because the signature note is appended to the reason text again; the
claim's "same result (same category, same confidence, same reason
text)" therefore fails. -/
theorem guess_type_binary_not_idempotent :
    guess_type_binary probeBytesCX "/m/a.package"
        (guess_type_binary probeBytesCX "/m/a.package" ("Unknown", mkRat 0 1, "")) ≠
      guess_type_binary probeBytesCX "/m/a.package" ("Unknown", mkRat 0 1, "") ∧
    (guess_type_binary probeBytesCX "/m/a.package" ("Unknown", mkRat 0 1, "")).2.2 =
      "DBPF: CASP" ∧
    (guess_type_binary probeBytesCX "/m/a.package"
        (guess_type_binary probeBytesCX "/m/a.package" ("Unknown", mkRat 0 1, ""))).2.2 =
      "DBPF: CASP; DBPF: CASP" := by
  refine ⟨?_, by decide, by decide⟩
  intro h
  have := congrArg (fun r => r.2.2) h
  simp only at this
  have h1 : (guess_type_binary probeBytesCX "/m/a.package"
      (guess_type_binary probeBytesCX "/m/a.package" ("Unknown", mkRat 0 1, ""))).2.2 =
      "DBPF: CASP; DBPF: CASP" := by decide
  have h2 : (guess_type_binary probeBytesCX "/m/a.package"
      ("Unknown", mkRat 0 1, "")).2.2 = "DBPF: CASP" := by decide
  rw [h1, h2] at this
  exact absurd this (by decide)

/-! ### C7: collision-age timestamp priority. -/

theorem tryPats_pos : ∀ (ps : List (List Char → List (Nat × Nat × Nat)))
    (s : List Char) (t : ℚ), tryPats ps s = some t → 0 < t := by
  intro ps
  induction ps with
  | nil => intro s t h; simp [tryPats] at h
  | cons p rest ih =>
    intro s t h
    rw [tryPats] at h
    cases hs : searchPat p s with
    | none => rw [hs] at h; exact ih s t h
    | some ymd =>
      rw [hs] at h
      have h2 : (if 1 ≤ ymd.2.2 ∧ ymd.2.2 ≤ daysInMonth ymd.1 ymd.2.1 then
          some (dtTimestamp ymd.1 ymd.2.1 ymd.2.2)
        else tryPats rest s) = some t := h
      by_cases hv : 1 ≤ ymd.2.2 ∧ ymd.2.2 ≤ daysInMonth ymd.1 ymd.2.1
      · rw [if_pos hv] at h2
        have ht : t = dtTimestamp ymd.1 ymd.2.1 ymd.2.2 := (Option.some.inj h2).symm
        rw [ht]
        unfold dtTimestamp
        rw [Rat.mkRat_eq_div]
        push_cast
        positivity
      · rw [if_neg hv] at h2
        exact ih s t h2

/-- Spec transcription, amended at steps (3)/(4): priority filename
date, then newest zip-entry date, then the later of mtime and ctime
when both are available (mtime preferred on ties), else whichever of
the two is available, a missing or zero timestamp counting as
unavailable, else zero. -/
def bestDateSpecAmended (f : DiskFile) : ℚ × String :=
  let nameDate := parse_date_from_name (basename f.path)
  let zipDate := date_from_zip f
  if truthyQ nameDate then (nameDate.getD (mkRat 0 1), "filename")
  else if truthyQ zipDate then (zipDate.getD (mkRat 0 1), "zip")
  else if truthyQ f.mtime ∧ truthyQ f.ctime then
    (if f.ctime.getD (mkRat 0 1) > f.mtime.getD (mkRat 0 1) then
      (f.ctime.getD (mkRat 0 1), "ctime")
    else (f.mtime.getD (mkRat 0 1), "mtime"))
  else if truthyQ f.mtime then (f.mtime.getD (mkRat 0 1), "mtime")
  else if truthyQ f.ctime then (f.ctime.getD (mkRat 0 1), "ctime")
  else (mkRat 0 1, "unknown")

/-- Modelled from the spec: the claim's literal priority order, which
stops at the filesystem modification time whenever it is available,
before ever consulting the creation time. -/
def bestDateSpecClaimed (f : DiskFile) : ℚ × String :=
  let nameDate := parse_date_from_name (basename f.path)
  let zipDate := date_from_zip f
  if truthyQ nameDate then (nameDate.getD (mkRat 0 1), "filename")
  else if truthyQ zipDate then (zipDate.getD (mkRat 0 1), "zip")
  else if truthyQ f.mtime then (f.mtime.getD (mkRat 0 1), "mtime")
  else if truthyQ f.ctime then (f.ctime.getD (mkRat 0 1), "ctime")
  else (mkRat 0 1, "unknown")

/-- C7, amended: best_date_for_file follows the claimed priority chain
with steps (3)/(4) amended to "the later of mtime and ctime when both
are available"; and a file whose name parses to a date is always dated
by that parse, whatever the filesystem times say. -/
theorem best_date_priority_amended (f : DiskFile) :
    best_date_for_file f = bestDateSpecAmended f ∧
    (∀ t, parse_date_from_name (basename f.path) = some t →
      best_date_for_file f = (t, "filename")) := by
  constructor
  · unfold best_date_for_file bestDateSpecAmended
    cases h1 : truthyQ (parse_date_from_name (basename f.path))
    case true => simp [h1]
    case false =>
      cases h2 : truthyQ (date_from_zip f)
      case true => simp [h1, h2]
      case false =>
        by_cases h34 : truthyQ f.mtime = true ∧ truthyQ f.ctime = true
        · simp only [h1, h2, Bool.false_eq_true, if_false, if_pos h34]
          by_cases hmc : f.mtime.getD (mkRat 0 1) ≥ f.ctime.getD (mkRat 0 1)
          · rw [if_pos hmc, if_neg (not_lt.mpr hmc)]
          · rw [if_neg hmc, if_pos (lt_of_not_ge hmc)]
        · simp [h1, h2, h34]
  · intro t hp
    have hpos : 0 < t := tryPats_pos [p1At, p2At, p3At, p4At]
      (lowerStr (basename f.path)).data t hp
    have htr2 : truthyQ (some t) = true := by
      simp only [truthyQ, decide_eq_true_eq]
      exact ne_of_gt hpos
    simp [best_date_for_file, hp, htr2]

/-- Metadata of the C7 counterexample file: no date in the name, not a
zip, modification time 100, change time 200. -/
def bestDateCXFile : DiskFile :=
  { path := "/m/modA.package", isZip := false, zipTimes := [],
    mtime := some (mkRat 100 1), ctime := some (mkRat 200 1) }

/-- C7, counterexample: both stat times are available and the change
time is newer, so the code returns the ctime value 200, while the
claimed priority stops at the available mtime 100 -- the fixed
"stop at the first success" order of the claim does not hold. -/
theorem best_date_not_claimed_priority :
    best_date_for_file bestDateCXFile = (mkRat 200 1, "ctime") ∧
    bestDateSpecClaimed bestDateCXFile = (mkRat 100 1, "mtime") ∧
    best_date_for_file bestDateCXFile ≠ bestDateSpecClaimed bestDateCXFile := by
  refine ⟨by decide, by decide, ?_⟩
  intro h
  have h1 : best_date_for_file bestDateCXFile = (mkRat 200 1, "ctime") := by decide
  have h2 : bestDateSpecClaimed bestDateCXFile = (mkRat 100 1, "mtime") := by decide
  rw [h1, h2] at h
  exact absurd h (by decide)

/-- Metadata of the C7 witness file: an embedded date 2023-01-01 in
the filename and a much newer mtime (mid 2024). -/
def bestDateWitnessFile : DiskFile :=
  { path := "/m/modA (2023-01-01).package", isZip := false, zipTimes := [],
    mtime := some (mkRat 1717243200 1), ctime := none }

/-- C7 witness: the embedded filename date outranks the newer mtime. -/
theorem best_date_priority_amended_witness :
    best_date_for_file bestDateWitnessFile = (dtTimestamp 2023 1 1, "filename") :=
  (best_date_priority_amended bestDateWitnessFile).2 (dtTimestamp 2023 1 1) (by decide)

/-! ### C3 and C4: the name classifier. -/

theorem KW_no_empty_phrase : ∀ kv ∈ KW, ¬(kv.1 = "") := by
  rw [KW_eq]
  decide

/-- Spec transcription of the five-branch contract of section 4.1:
script extension, archive extension, first keyword-table phrase that
occurs in the lowercased name, packed-resource fallback, other. -/
def classifyByNameSpec (name ext : String) : String × ℚ × String :=
  if ext = ".ts4script" then ("Script Mod", mkRat 95 100, "by extension")
  else if ext = ".zip" ∨ ext = ".rar" ∨ ext = ".7z" then
    ("Archive", mkRat 70 100, "archive")
  else
    match List.find? (fun kv => strContains (lowerStr name) kv.1) KW with
    | some kv => (canon kv.2, mkRat 70 100, "Keyword: " ++ kv.1)
    | none =>
      if ext = ".package" then ("Unknown", mkRat 40 100, "Package with no keyword match")
      else ("Other", mkRat 60 100,
        if ext = "" then "No extension" else "Unhandled ext " ++ ext)

/-- C3: guess_type_for_name implements the five-branch contract, with
the keyword branch returning the canonical category of the first table
entry (the table being sorted longest phrase first) whose phrase
occurs in the lowercased filename, at the spec's confidences and
reasons. -/
theorem guess_type_for_name_five_branches (name ext : String) :
    guess_type_for_name name ext = classifyByNameSpec name ext := by
  have e : guess_type_for_name name ext =
      (if ext = ".ts4script" then ("Script Mod", mkRat 95 100, "by extension")
       else if ext = ".zip" ∨ ext = ".rar" ∨ ext = ".7z" then
         ("Archive", mkRat 7 10, "archive")
       else
         match List.find?
             (fun kv => !(kv.1 == "") && strContains (lowerStr name) kv.1) KW with
         | some kv => (canon kv.2, mkRat 70 100, "Keyword: " ++ kv.1)
         | none =>
           if ext = ".package" then
             ("Unknown", mkRat 40 100, "Package with no keyword match")
           else ("Other", mkRat 60 100,
             if ext = "" then "No extension" else "Unhandled ext " ++ ext)) := rfl
  have hfind : List.find? (fun kv => !(kv.1 == "") && strContains (lowerStr name) kv.1) KW
      = List.find? (fun kv => strContains (lowerStr name) kv.1) KW := by
    apply find?_congr_mem
    intro kv hkv
    have hne := KW_no_empty_phrase kv hkv
    have hbe : (kv.1 == "") = false := by
      simp only [beq_eq_false_iff_ne, ne_eq]
      exact hne
    rw [hbe]
    simp
  have harch : (mkRat 7 10 : ℚ) = mkRat 70 100 := by decide
  rw [e, harch, hfind]
  rfl

/-- Executable check that adjacent table entries are ordered by
descending phrase length with lexicographic tie-break. -/
def lenLexChainOk : List (String × String) → Bool
  | [] => true
  | [_] => true
  | a :: b :: rest =>
    (decide (b.1.length < a.1.length) ||
      (a.1.length == b.1.length && (a.1 == b.1 || strLt a.1 b.1))) &&
    lenLexChainOk (b :: rest)

theorem lenLexChainOk_chain' : ∀ l, lenLexChainOk l = true →
    List.Chain' (fun a b : String × String =>
      b.1.length < a.1.length ∨
        (a.1.length = b.1.length ∧ (a.1 = b.1 ∨ strLt a.1 b.1 = true))) l := by
  intro l
  induction l with
  | nil => intro _; exact List.chain'_nil
  | cons a rest ih =>
    intro h
    cases rest with
    | nil => exact List.chain'_singleton a
    | cons b rest2 =>
      rw [show lenLexChainOk (a :: b :: rest2) =
          ((decide (b.1.length < a.1.length) ||
            (a.1.length == b.1.length && (a.1 == b.1 || strLt a.1 b.1))) &&
          lenLexChainOk (b :: rest2)) from rfl, Bool.and_eq_true] at h
      rw [List.chain'_cons]
      refine ⟨?_, ih h.2⟩
      have h1 := h.1
      simp only [Bool.or_eq_true, Bool.and_eq_true, decide_eq_true_eq,
        beq_iff_eq] at h1
      exact h1

/-- C4: the keyword table is ordered by strictly decreasing phrase
length with lexicographic tie-break (equal phrases adjacent), and a
keyword classification always comes from the first matching entry in
that order, so no longer matching phrase is shadowed: every table
phrase strictly longer than the winner does not occur in the filename
at all. -/
theorem kw_longest_match_wins :
    List.Chain' (fun a b : String × String =>
      b.1.length < a.1.length ∨
        (a.1.length = b.1.length ∧ (a.1 = b.1 ∨ strLt a.1 b.1 = true))) KW ∧
    ∀ name ext kw cat : String,
      ext ≠ ".ts4script" ∧ ext ≠ ".zip" ∧ ext ≠ ".rar" ∧ ext ≠ ".7z" →
      List.find? (fun kv => !(kv.1 == "") && strContains (lowerStr name) kv.1) KW =
        some (kw, cat) →
      guess_type_for_name name ext = (canon cat, mkRat 70 100, "Keyword: " ++ kw) ∧
      ∀ kv2 ∈ KW, kw.length < kv2.1.length →
        strContains (lowerStr name) kv2.1 = false := by
  have hchain : List.Chain' (fun a b : String × String =>
      b.1.length < a.1.length ∨
        (a.1.length = b.1.length ∧ (a.1 = b.1 ∨ strLt a.1 b.1 = true))) KW := by
    apply lenLexChainOk_chain'
    rw [KW_eq]
    decide
  refine ⟨hchain, ?_⟩
  intro name ext kw cat hext hfind
  constructor
  · unfold guess_type_for_name guess_type_for_name_with
    rw [if_neg hext.1, if_neg (by
      rintro (h | h | h)
      · exact hext.2.1 h
      · exact hext.2.2.1 h
      · exact hext.2.2.2 h), hfind]
  · intro kv2 hkv2 hlen
    obtain ⟨hp, as, bs, hsplit, hprev⟩ := List.find?_eq_some.mp hfind
    have hpw : List.Pairwise (fun a b : String × String => b.1.length ≤ a.1.length) KW := by
      haveI : IsTrans (String × String)
          (fun a b : String × String => b.1.length ≤ a.1.length) :=
        ⟨fun a b c hab hbc => le_trans hbc hab⟩
      rw [← List.chain'_iff_pairwise]
      apply List.Chain'.imp ?_ hchain
      intro a b hr
      rcases hr with h1 | ⟨h2, _⟩
      · exact le_of_lt h1
      · exact le_of_eq h2.symm
    rw [hsplit] at hkv2 hpw
    rcases List.mem_append.mp hkv2 with hin | hin
    · have hfalse := hprev kv2 hin
      cases hc : strContains (lowerStr name) kv2.1 with
      | false => rfl
      | true =>
        exfalso
        have hne := KW_no_empty_phrase kv2 (by rw [hsplit]; exact List.mem_append_left _ hin)
        have hbe : (kv2.1 == "") = false := by
          simp only [beq_eq_false_iff_ne, ne_eq]
          exact hne
        rw [hbe, hc] at hfalse
        simp at hfalse
    · rcases List.mem_cons.mp hin with heq | hin2
      · exfalso
        rw [heq] at hlen
        exact lt_irrefl _ hlen
      · exfalso
        have := (List.pairwise_append.mp hpw).2.1
        have hrel := (List.pairwise_cons.mp this).1 kv2 hin2
        exact absurd hlen (not_lt.mpr hrel)

/-- C4 witness: a filename containing both "phone ui" and its shorter
substring "phone" classifies by the longer phrase "phone ui". -/
theorem kw_longest_match_wins_witness :
    guess_type_for_name "zz phone ui.package" ".package" =
      ("override", mkRat 70 100, "Keyword: phone ui") ∧
    strContains (lowerStr "zz phone ui.package") "phone" = true := by
  refine ⟨?_, by decide⟩
  have hf : List.find?
      (fun kv => !(kv.1 == "") && strContains (lowerStr "zz phone ui.package") kv.1) KW =
      some ("phone ui", "override") := by
    rw [KW_eq]
    decide
  have hr := (kw_longest_match_wins.2 "zz phone ui.package" ".package" "phone ui" "override"
    (by refine ⟨?_, ?_, ?_, ?_⟩ <;> decide) hf).1
  rw [hr]
  decide

/-! ### C8: move planning. -/

/-- Loop of the amended planning contract: include=false records are
counted as skipped; otherwise an existing destination (which includes
a destination equal to the source path) yields a collision case and no
move, and a free destination yields a move (failing when the source is
missing, as shutil.move does). -/
def performSpecGo (mods_root : String) :
    List FileItem → FS → Nat → Nat → List (String × String × String) →
    List MoveOp →
    Except String (Nat × Nat × List (String × String × String) × List MoveOp × FS)
  | [], fs, moved, skipped, cols, logs => .ok (moved, skipped, cols, logs, fs)
  | it :: rest, fs, moved, skipped, cols, logs =>
    if ¬ it.include_ then
      performSpecGo mods_root rest fs moved (skipped + 1) cols logs
    else
      let dest := joinPath (joinPath mods_root it.target_folder) it.name
      if existsFS fs dest then
        performSpecGo mods_root rest fs moved skipped
          (cols ++ [(it.path, dest, "name collision")]) logs
      else
        match findFS fs it.path with
        | none => .error ("shutil.move: no such file " ++ it.path)
        | some _ =>
          performSpecGo mods_root rest (moveFS fs it.path dest) (moved + 1) skipped
            cols (logs ++ [⟨it.path, dest⟩])

/-- Amended spec of perform_moves (the claim with its dest-equals-
source no-op branch removed: such a record falls under the existing-
destination case and produces a collision). -/
def perform_moves_spec_amended (items : List FileItem) (mods_root : String) (fs : FS) :
    Except String (Nat × Nat × List (String × String × String) × List MoveOp × FS) :=
  performSpecGo mods_root items fs 0 0 [] []

theorem performGo_eq_spec (mods_root : String) : ∀ (l : List FileItem) (fs : FS)
    (m s : Nat) (cols : List (String × String × String)) (logs : List MoveOp),
    performGo mods_root l fs m s cols logs = performSpecGo mods_root l fs m s cols logs := by
  intro l
  induction l with
  | nil => intro fs m s cols logs; rfl
  | cons it rest ih =>
    intro fs m s cols logs
    rw [performGo, performSpecGo]
    cases hinc : it.include_ with
    | false =>
      simp only [hinc]
      exact ih fs m (s + 1) cols logs
    | true =>
      simp only [hinc]
      cases hex : existsFS fs (joinPath (joinPath mods_root it.target_folder) it.name) with
      | true =>
        simp only [hex]
        exact ih fs m s (cols ++ [(it.path,
          joinPath (joinPath mods_root it.target_folder) it.name, "name collision")]) logs
      | false =>
        have hup := unique_path_not_exists fs
          (joinPath (joinPath mods_root it.target_folder) it.name) hex
        simp only [hex, hup]
        cases findFS fs it.path with
        | none => rfl
        | some v =>
          exact ih _ (m + 1) s cols
            (logs ++ [⟨it.path, joinPath (joinPath mods_root it.target_folder) it.name⟩])

/-- C8, amended: for each record, move planning computes destination
root/targetFolder/filename; include=false records are skipped; a
record whose destination already exists on disk -- including when the
destination equals the source path itself -- yields a collision case
and no move; otherwise the file is moved to the destination and
logged. -/
theorem perform_moves_follows_amended_spec (items : List FileItem)
    (mods_root : String) (fs : FS) :
    perform_moves items mods_root fs = perform_moves_spec_amended items mods_root fs :=
  performGo_eq_spec mods_root items fs 0 0 [] []

/-- A record already sitting in its target folder: destination equals
the source path. -/
def c8Item : FileItem :=
  { path := "/m/T/f.package", name := "f.package", ext := ".package",
    size_mb := mkRat 0 1, relpath := "T/f.package", guess_type := "Other",
    confidence := mkRat 60 100, notes := "", include_ := true,
    target_folder := "T" }

def c8FS : FS := [("/m/T/f.package", 1)]

/-- C8, counterexample: when the destination equals the source path
the code does not skip the record as a no-op -- the source file itself
makes the destination exist, so a collision case (src = dst) is
emitted. -/
theorem perform_moves_dest_eq_source_collides :
    perform_moves [c8Item] "/m" c8FS =
      .ok (0, 0, [("/m/T/f.package", "/m/T/f.package", "name collision")], [], c8FS) ∧
    c8Item.path = joinPath (joinPath "/m" c8Item.target_folder) c8Item.name := by
  constructor
  · rfl
  · decide

/-! ### C9: scan progress events. -/

/-- The status that scan_folder reports for one walked file. -/
def scanStatus (env : ScanEnv) (ignore_exts ignore_name_contains : List String)
    (fpath : String) : String :=
  let fname := basename fpath
  let low := lowerStr fname
  let ed := detect_real_ext fname
  let ext := if ed.1 ≠ "" ∧ ¬ strStarts ed.1 "." then "." ++ ed.1 else ed.1
  if ignore_exts.contains ext then "ignored_ext"
  else if ignore_name_contains.any (fun tok => strContains low tok) then "ignored_name"
  else match env.failing fpath with
    | some _ => "error"
    | none => "ok"

theorem scanGo_snd_cons (env : ScanEnv) (root : String)
    (fm : Option (List (String × String))) (igE igN : List String)
    (ord : Option (List String)) (bin : Bool)
    (slots : Option (List (String × String))) (total i : Nat)
    (fpath : String) (rest : List String) :
    (scanGo env root fm igE igN ord bin slots total i (fpath :: rest)).2 =
      (i, total, fpath, scanStatus env igE igN fpath) ::
        (scanGo env root fm igE igN ord bin slots total (i + 1) rest).2 := by
  simp only [scanGo, scanStatus]
  cases hfail : env.failing fpath <;> split_ifs <;> rfl

theorem scanGo_events (env : ScanEnv) (root : String)
    (fm : Option (List (String × String))) (igE igN : List String)
    (ord : Option (List String)) (bin : Bool)
    (slots : Option (List (String × String))) (total : Nat) :
    ∀ (l : List String) (i : Nat),
    (scanGo env root fm igE igN ord bin slots total i l).2 =
      (List.enumFrom i l).map
        (fun kp => (kp.1, total, kp.2, scanStatus env igE igN kp.2)) := by
  intro l
  induction l with
  | nil => intro i; rfl
  | cons fpath rest ih =>
    intro i
    rw [scanGo_snd_cons, ih (i + 1)]
    rfl

/-- C9, amended: the progress callback is invoked exactly once per
enumerated file, in order, with arguments (index from 1, total, path,
status), and the status is always one of "ok", "ignored_ext",
"ignored_name", "error". -/
theorem scan_progress_events (env : ScanEnv) (root : String)
    (fm : Option (List (String × String))) (recurse : Bool) (igE igN : List String)
    (ord : Option (List String)) (bin : Bool)
    (slots : Option (List (String × String))) :
    (scan_folder env root fm recurse igE igN ord bin slots).2 =
      (List.enumFrom 1 (walkFiles root recurse env)).map
        (fun kp => (kp.1, (walkFiles root recurse env).length, kp.2,
          scanStatus env igE igN kp.2)) ∧
    ∀ p : String,
      scanStatus env igE igN p ∈ (["ok", "ignored_ext", "ignored_name", "error"] : List String) := by
  constructor
  · exact scanGo_events env root fm igE igN ord bin slots
      (walkFiles root recurse env).length (walkFiles root recurse env) 1
  · intro p
    unfold scanStatus
    cases hfail : (env.failing p) <;> dsimp only <;> split_ifs <;> decide

/-- Environment of the C9 counterexample: one file whose extension is
on the ignore list. -/
def c9Env : ScanEnv := { files := [("/m/a.bak", [])], failing := fun _ => none }

/-- C9, counterexample: an extension-ignored file is reported with
status "ignored_ext", which is not one of the claimed three statuses
"ok" / "ignored" / "error" (name-ignored files likewise get
"ignored_name"). -/
theorem scan_status_not_in_claimed_set :
    (scan_folder c9Env "/m" none true [".bak"] [] none true none).2 =
      [(1, 1, "/m/a.bak", "ignored_ext")] ∧
    ¬ ("ignored_ext" ∈ (["ok", "ignored", "error"] : List String)) := by
  constructor
  · rfl
  · decide

/-! ### C10: error records are excluded from moving. -/

theorem scanGo_error_fields (env : ScanEnv) (root : String)
    (fm : Option (List (String × String))) (igE igN : List String)
    (ord : Option (List String)) (bin : Bool)
    (slots : Option (List (String × String))) (total : Nat) :
    ∀ (l : List String) (i : Nat) (rec : FileItem),
    rec ∈ (scanGo env root fm igE igN ord bin slots total i l).1 →
    (env.failing rec.path).isSome = true →
    rec.include_ = false ∧ rec.guess_type = "Unknown" ∧ rec.confidence = mkRat 0 1 := by
  intro l
  induction l with
  | nil =>
    intro i rec hrec
    rw [scanGo] at hrec
    exact absurd hrec (List.not_mem_nil rec)
  | cons fpath rest ih =>
    intro i rec hrec hfl
    rw [scanGo] at hrec
    dsimp only at hrec
    split at hrec
    all_goals split at hrec
    all_goals try exact ih (i + 1) rec hrec hfl
    all_goals split at hrec
    all_goals try exact ih (i + 1) rec hrec hfl
    all_goals split at hrec
    all_goals first
      | (rcases List.mem_cons.mp hrec with rfl | hrec
         exact ⟨rfl, rfl, rfl⟩
         exact ih (i + 1) rec hrec hfl)
      | (rename_i heq
         rcases List.mem_cons.mp hrec with rfl | hrec
         dsimp only at hfl
         rw [heq] at hfl
         simp at hfl
         exact ih (i + 1) rec hrec hfl)

theorem performGo_cons_skip (mods_root : String) (it : FileItem)
    (rest : List FileItem) (fs : FS) (m s : Nat)
    (cols : List (String × String × String)) (logs : List MoveOp)
    (h : it.include_ = false) :
    performGo mods_root (it :: rest) fs m s cols logs =
      performGo mods_root rest fs m (s + 1) cols logs := by
  rw [performGo, if_pos]
  simp [h]

theorem performGo_cons_collide (mods_root : String) (it : FileItem)
    (rest : List FileItem) (fs : FS) (m s : Nat)
    (cols : List (String × String × String)) (logs : List MoveOp)
    (h : it.include_ = true)
    (h2 : existsFS fs (joinPath (joinPath mods_root it.target_folder) it.name) = true) :
    performGo mods_root (it :: rest) fs m s cols logs =
      performGo mods_root rest fs m s
        (cols ++ [(it.path, joinPath (joinPath mods_root it.target_folder) it.name,
          "name collision")]) logs := by
  rw [performGo, if_neg (by simp [h])]
  dsimp only
  rw [if_pos h2]

theorem performGo_cons_move (mods_root : String) (it : FileItem)
    (rest : List FileItem) (fs : FS) (m s : Nat)
    (cols : List (String × String × String)) (logs : List MoveOp)
    (h : it.include_ = true)
    (h2 : existsFS fs (joinPath (joinPath mods_root it.target_folder) it.name) = false)
    (v : Nat) (h3 : findFS fs it.path = some v) :
    performGo mods_root (it :: rest) fs m s cols logs =
      performGo mods_root rest
        (moveFS fs it.path
          (unique_path fs (joinPath (joinPath mods_root it.target_folder) it.name)))
        (m + 1) s cols
        (logs ++ [⟨it.path,
          unique_path fs (joinPath (joinPath mods_root it.target_folder) it.name)⟩]) := by
  rw [performGo, if_neg (by simp [h])]
  dsimp only
  rw [if_neg (by simp [h2]), h3]

theorem performGo_cons_missing (mods_root : String) (it : FileItem)
    (rest : List FileItem) (fs : FS) (m s : Nat)
    (cols : List (String × String × String)) (logs : List MoveOp)
    (h : it.include_ = true)
    (h2 : existsFS fs (joinPath (joinPath mods_root it.target_folder) it.name) = false)
    (h3 : findFS fs it.path = none) :
    performGo mods_root (it :: rest) fs m s cols logs =
      .error ("shutil.move: no such file " ++ it.path) := by
  rw [performGo, if_neg (by simp [h])]
  dsimp only
  rw [if_neg (by simp [h2]), h3]

theorem performGo_origin (mods_root : String) :
    ∀ (l : List FileItem) (fs : FS) (m s : Nat)
      (cols : List (String × String × String)) (logs : List MoveOp)
      (res : Nat × Nat × List (String × String × String) × List MoveOp × FS),
    performGo mods_root l fs m s cols logs = .ok res →
    (∀ c ∈ res.2.2.1, c ∈ cols ∨ ∃ it ∈ l, it.include_ = true ∧ c.1 = it.path) ∧
    (∀ op ∈ res.2.2.2.1, op ∈ logs ∨ ∃ it ∈ l, it.include_ = true ∧ op.src = it.path) := by
  intro l
  induction l with
  | nil =>
    intro fs m s cols logs res h
    rw [performGo] at h
    cases h
    exact ⟨fun c hc => Or.inl hc, fun op hop => Or.inl hop⟩
  | cons it rest ih =>
    intro fs m s cols logs res h
    cases hinc : it.include_ with
    | false =>
      rw [performGo_cons_skip mods_root it rest fs m s cols logs hinc] at h
      obtain ⟨h1, h2⟩ := ih fs m (s + 1) cols logs res h
      refine ⟨fun c hc => ?_, fun op hop => ?_⟩
      · rcases h1 c hc with hc' | ⟨it', hm, hi, hp⟩
        · exact Or.inl hc'
        · exact Or.inr ⟨it', List.mem_cons_of_mem it hm, hi, hp⟩
      · rcases h2 op hop with hop' | ⟨it', hm, hi, hp⟩
        · exact Or.inl hop'
        · exact Or.inr ⟨it', List.mem_cons_of_mem it hm, hi, hp⟩
    | true =>
      cases hex : existsFS fs (joinPath (joinPath mods_root it.target_folder) it.name) with
      | true =>
        rw [performGo_cons_collide mods_root it rest fs m s cols logs hinc hex] at h
        obtain ⟨h1, h2⟩ := ih fs m s _ logs res h
        refine ⟨fun c hc => ?_, fun op hop => ?_⟩
        · rcases h1 c hc with hc' | ⟨it', hm, hi, hp⟩
          · rcases List.mem_append.mp hc' with hc'' | hc''
            · exact Or.inl hc''
            · rcases List.mem_singleton.mp hc'' with rfl
              exact Or.inr ⟨it, List.mem_cons_self it rest, hinc, rfl⟩
          · exact Or.inr ⟨it', List.mem_cons_of_mem it hm, hi, hp⟩
        · rcases h2 op hop with hop' | ⟨it', hm, hi, hp⟩
          · exact Or.inl hop'
          · exact Or.inr ⟨it', List.mem_cons_of_mem it hm, hi, hp⟩
      | false =>
        cases hfind : findFS fs it.path with
        | none =>
          rw [performGo_cons_missing mods_root it rest fs m s cols logs hinc hex hfind] at h
          exact absurd h (by simp)
        | some v =>
          rw [performGo_cons_move mods_root it rest fs m s cols logs hinc hex v hfind] at h
          obtain ⟨h1, h2⟩ := ih _ (m + 1) s cols _ res h
          refine ⟨fun c hc => ?_, fun op hop => ?_⟩
          · rcases h1 c hc with hc' | ⟨it', hm, hi, hp⟩
            · exact Or.inl hc'
            · exact Or.inr ⟨it', List.mem_cons_of_mem it hm, hi, hp⟩
          · rcases h2 op hop with hop' | ⟨it', hm, hi, hp⟩
            · rcases List.mem_append.mp hop' with hop'' | hop''
              · exact Or.inl hop''
              · rcases List.mem_singleton.mp hop'' with rfl
                exact Or.inr ⟨it, List.mem_cons_self it rest, hinc, rfl⟩
            · exact Or.inr ⟨it', List.mem_cons_of_mem it hm, hi, hp⟩

/-- C10: every FileItem that scan_folder emits for a path whose stat
raised has include=false, category "Unknown" and confidence 0; and in
any successful perform_moves run over scan_folder output, every
collision case and every logged move stems from a path whose stat did
not raise -- an error record is never relocated. -/
theorem scan_error_records_excluded (env : ScanEnv) (root : String)
    (fm : Option (List (String × String))) (recurse : Bool) (igE igN : List String)
    (ord : Option (List String)) (bin : Bool)
    (slots : Option (List (String × String)))
    (mods_root : String) (fs : FS)
    (res : Nat × Nat × List (String × String × String) × List MoveOp × FS) :
    (∀ rec ∈ (scan_folder env root fm recurse igE igN ord bin slots).1,
      (env.failing rec.path).isSome = true →
      rec.include_ = false ∧ rec.guess_type = "Unknown" ∧ rec.confidence = mkRat 0 1) ∧
    (perform_moves (scan_folder env root fm recurse igE igN ord bin slots).1 mods_root fs
        = .ok res →
      (∀ c ∈ res.2.2.1, env.failing c.1 = none) ∧
      (∀ op ∈ res.2.2.2.1, env.failing op.src = none)) := by
  have hA : ∀ rec ∈ (scan_folder env root fm recurse igE igN ord bin slots).1,
      (env.failing rec.path).isSome = true →
      rec.include_ = false ∧ rec.guess_type = "Unknown" ∧ rec.confidence = mkRat 0 1 := by
    intro rec hrec
    exact scanGo_error_fields env root fm igE igN ord bin slots
      (walkFiles root recurse env).length (walkFiles root recurse env) 1 rec
      ((mem_pySorted scanSortLt rec _).mp hrec)
  have hB : ∀ it ∈ (scan_folder env root fm recurse igE igN ord bin slots).1,
      it.include_ = true → env.failing it.path = none := by
    intro it hm hi
    cases hv : env.failing it.path with
    | none => rfl
    | some msg =>
      have hs : (env.failing it.path).isSome = true := by rw [hv]; rfl
      have hf := (hA it hm hs).1
      rw [hi] at hf
      simp at hf
  refine ⟨hA, fun hok => ?_⟩
  obtain ⟨h1, h2⟩ := performGo_origin mods_root _ fs 0 0 [] [] res hok
  refine ⟨fun c hc => ?_, fun op hop => ?_⟩
  · rcases h1 c hc with hc' | ⟨it, hm, hi, hp⟩
    · exact absurd hc' (List.not_mem_nil c)
    · rw [hp]
      exact hB it hm hi
  · rcases h2 op hop with hop' | ⟨it, hm, hi, hp⟩
    · exact absurd hop' (List.not_mem_nil op)
    · rw [hp]
      exact hB it hm hi

/-- Environment of the C10 witness: a single walked file whose stat
raises. -/
def c10Env : ScanEnv :=
  { files := [("/m/bad.package", [])],
    failing := fun p => if p = "/m/bad.package" then some "boom" else none }

/-- The error record that scans out of c10Env. -/
def c10Rec : FileItem :=
  { path := "/m/bad.package", name := basename "/m/bad.package",
    ext := lowerStr (splitext "/m/bad.package").2,
    size_mb := mkRat 0 1, relpath := relpathUnder "/m/bad.package" "/m",
    guess_type := "Unknown", confidence := mkRat 0 1,
    notes := "scan error: boom", include_ := false,
    target_folder := map_type_to_folder "Unknown" none none }

/-- Disk state of the C10 witness. -/
def c10FS : FS := [("/m/bad.package", 5)]

theorem scan_error_records_excluded_witness :
    c10Rec ∈ (scan_folder c10Env "/m" none true [] [] none false none).1 ∧
    (c10Env.failing c10Rec.path).isSome = true ∧
    (c10Rec.include_ = false ∧ c10Rec.guess_type = "Unknown" ∧
      c10Rec.confidence = mkRat 0 1) ∧
    perform_moves (scan_folder c10Env "/m" none true [] [] none false none).1 "/m" c10FS
      = .ok (0, 1, [], [], c10FS) ∧
    (∀ c ∈ ((0, 1, ([] : List (String × String × String)), ([] : List MoveOp),
        c10FS) : Nat × Nat × List (String × String × String) × List MoveOp × FS).2.2.1,
      c10Env.failing c.1 = none) := by
  have hscan : (scan_folder c10Env "/m" none true [] [] none false none).1 = [c10Rec] := by
    rfl
  have hperf : perform_moves (scan_folder c10Env "/m" none true [] [] none false none).1
      "/m" c10FS = .ok (0, 1, [], [], c10FS) := by
    rw [hscan]
    rfl
  have hmem : c10Rec ∈ (scan_folder c10Env "/m" none true [] [] none false none).1 := by
    rw [hscan]
    exact List.mem_cons_self c10Rec []
  refine ⟨hmem, rfl, ?_, hperf, ?_⟩
  · exact (scan_error_records_excluded c10Env "/m" none true [] [] none false none
      "/m" c10FS (0, 1, [], [], c10FS)).1 c10Rec hmem rfl
  · exact ((scan_error_records_excluded c10Env "/m" none true [] [] none false none
      "/m" c10FS (0, 1, [], [], c10FS)).2 hperf).1

/-! ### C2: perform / save-log / undo round-trip. -/

/-- The per-op state update of undo_last_move's replay loop. -/
def undoStep (acc : FS × Nat) (op : MoveOp) : FS × Nat :=
  if op.dst = "" ∨ ¬ existsFS acc.1 op.dst then acc
  else (moveFS acc.1 op.dst op.src, acc.2 + 1)

/-- The move list that perform_moves emits: each op has a non-empty
destination that is free at its turn and a present source. -/
def ValidOps : FS → List MoveOp → Prop
  | _, [] => True
  | fs, op :: rest =>
    op.dst ≠ "" ∧ findFS fs op.dst = none ∧ (∃ v, findFS fs op.src = some v) ∧
      ValidOps (moveFS fs op.src op.dst) rest

/-- Replay a move list forward. -/
def applyOps (fs : FS) (ops : List MoveOp) : FS :=
  ops.foldl (fun a op => moveFS a op.src op.dst) fs

theorem findFS_move_congr (a b : FS) (hab : ∀ q, findFS a q = findFS b q)
    (src dst q : String) :
    findFS (moveFS a src dst) q = findFS (moveFS b src dst) q := by
  rw [findFS_move, findFS_move, hab src]
  cases findFS b src with
  | none => exact hab q
  | some v =>
    by_cases h1 : dst = q
    · simp [h1]
    · by_cases h2 : src = q
      · simp [h1, h2]
      · simp [h1, h2, hab q]

theorem moveFS_undo (fs : FS) (src dst : String) (v : Nat)
    (hsrc : findFS fs src = some v) (hdst : findFS fs dst = none) (q : String) :
    findFS (moveFS (moveFS fs src dst) dst src) q = findFS fs q := by
  have h1 : findFS (moveFS fs src dst) dst = some v := by
    rw [findFS_move, hsrc]
    simp
  rw [findFS_move, h1]
  dsimp only
  by_cases hq1 : src = q
  · subst hq1
    simp [hsrc]
  · rw [if_neg hq1]
    by_cases hq2 : dst = q
    · subst hq2
      rw [if_pos rfl, hdst]
    · rw [if_neg hq2, findFS_move, hsrc]
      dsimp only
      rw [if_neg hq2, if_neg hq1]

theorem undoOps_inverts : ∀ (ops : List MoveOp) (fs fs' : FS) (n : Nat),
    ValidOps fs ops →
    (∀ q, findFS fs' q = findFS (applyOps fs ops) q) →
    ∀ q, findFS (ops.reverse.foldl undoStep (fs', n)).1 q = findFS fs q := by
  intro ops
  induction ops with
  | nil =>
    intro fs fs' n _ hfs q
    simpa [applyOps] using hfs q
  | cons op rest ih =>
    intro fs fs' n hv hfs q
    have hv' : op.dst ≠ "" ∧ findFS fs op.dst = none ∧
        (∃ v, findFS fs op.src = some v) ∧
        ValidOps (moveFS fs op.src op.dst) rest := hv
    obtain ⟨hne, hdst, ⟨v, hsrc⟩, hvr⟩ := hv'
    have hreverse : (op :: rest).reverse = rest.reverse ++ [op] := by simp
    rw [hreverse, List.foldl_append]
    have hfs1 : ∀ q, findFS fs' q = findFS (applyOps (moveFS fs op.src op.dst) rest) q := by
      intro q
      rw [hfs q]
      rfl
    have hinner := ih (moveFS fs op.src op.dst) fs' n hvr hfs1
    show findFS (undoStep (rest.reverse.foldl undoStep (fs', n)) op).1 q = findFS fs q
    have hgd : findFS (rest.reverse.foldl undoStep (fs', n)).1 op.dst = some v := by
      rw [hinner op.dst, findFS_move, hsrc]
      simp
    have hex : existsFS (rest.reverse.foldl undoStep (fs', n)).1 op.dst = true := by
      unfold existsFS
      rw [hgd]
      rfl
    have hnot : ¬ (op.dst = "" ∨
        ¬ existsFS (rest.reverse.foldl undoStep (fs', n)).1 op.dst = true) := by
      rw [hex]
      simp [hne]
    rw [undoStep, if_neg hnot]
    show findFS (moveFS (rest.reverse.foldl undoStep (fs', n)).1 op.dst op.src) q
        = findFS fs q
    rw [findFS_move_congr (rest.reverse.foldl undoStep (fs', n)).1
      (moveFS fs op.src op.dst) hinner op.dst op.src q]
    exact moveFS_undo fs op.src op.dst v hsrc hdst q

theorem performGo_valid (mods_root : String) :
    ∀ (l : List FileItem) (fs : FS) (m s : Nat)
      (cols : List (String × String × String)) (logs : List MoveOp)
      (res : Nat × Nat × List (String × String × String) × List MoveOp × FS),
    performGo mods_root l fs m s cols logs = .ok res →
    ∃ newOps, res.2.2.2.1 = logs ++ newOps ∧ ValidOps fs newOps ∧
      res.2.2.2.2 = applyOps fs newOps := by
  intro l
  induction l with
  | nil =>
    intro fs m s cols logs res h
    rw [performGo] at h
    cases h
    exact ⟨[], by simp, (trivial : True), rfl⟩
  | cons it rest ih =>
    intro fs m s cols logs res h
    cases hinc : it.include_ with
    | false =>
      rw [performGo_cons_skip mods_root it rest fs m s cols logs hinc] at h
      exact ih fs m (s + 1) cols logs res h
    | true =>
      cases hex : existsFS fs (joinPath (joinPath mods_root it.target_folder) it.name) with
      | true =>
        rw [performGo_cons_collide mods_root it rest fs m s cols logs hinc hex] at h
        exact ih fs m s _ logs res h
      | false =>
        cases hfind : findFS fs it.path with
        | none =>
          rw [performGo_cons_missing mods_root it rest fs m s cols logs hinc hex hfind] at h
          exact absurd h (by simp)
        | some v =>
          rw [performGo_cons_move mods_root it rest fs m s cols logs hinc hex v hfind] at h
          obtain ⟨newOps, hlogs, hvalid, happly⟩ := ih _ (m + 1) s cols _ res h
          have hup : unique_path fs (joinPath (joinPath mods_root it.target_folder) it.name)
              = joinPath (joinPath mods_root it.target_folder) it.name :=
            unique_path_not_exists fs _ hex
          refine ⟨⟨it.path,
            unique_path fs (joinPath (joinPath mods_root it.target_folder) it.name)⟩
              :: newOps, ?_, ?_, ?_⟩
          · rw [hlogs]
            simp
          · show unique_path fs (joinPath (joinPath mods_root it.target_folder) it.name) ≠ ""
              ∧ findFS fs
                (unique_path fs (joinPath (joinPath mods_root it.target_folder) it.name))
                = none
              ∧ (∃ w, findFS fs it.path = some w)
              ∧ ValidOps (moveFS fs it.path
                  (unique_path fs (joinPath (joinPath mods_root it.target_folder) it.name)))
                  newOps
            refine ⟨?_, ?_, ⟨v, hfind⟩, hvalid⟩
            · rw [hup]
              exact joinPath_ne_empty _ _
            · rw [hup]
              exact (existsFS_false_iff fs _).mp hex
          · exact happly

theorem undo_last_move_batch (fs : FS) (t : ℚ) (ops : List MoveOp)
    (pre : List LogBatch) :
    undo_last_move fs (some (pre ++ [⟨t, ops⟩])) =
      ("Undid " ++ Nat.repr (ops.reverse.foldl undoStep (fs, 0)).2 ++ " file(s).",
       (ops.reverse.foldl undoStep (fs, 0)).1, some pre) := by
  unfold undo_last_move
  dsimp only
  rw [List.getLast?_concat, List.dropLast_concat]
  rfl

/-- C2: for a single batch with no intervening operations, performing
the moves, appending them to the log, and undoing the last batch
restores every file to its original location and leaves the move log
empty (either still missing, or present with no batches). -/
theorem perform_save_undo_roundtrip (items : List FileItem) (mods_root : String)
    (fs0 : FS) (t : ℚ) (log0 : Option (List LogBatch))
    (res : Nat × Nat × List (String × String × String) × List MoveOp × FS)
    (hok : perform_moves items mods_root fs0 = .ok res)
    (hlog : log0 = none ∨ log0 = some []) :
    (∀ q, findFS (undo_last_move res.2.2.2.2 (save_moves_log res.2.2.2.1 t log0)).2.1 q
        = findFS fs0 q) ∧
    ((undo_last_move res.2.2.2.2 (save_moves_log res.2.2.2.1 t log0)).2.2 = none ∨
     (undo_last_move res.2.2.2.2 (save_moves_log res.2.2.2.1 t log0)).2.2 = some []) := by
  obtain ⟨newOps, hlogs, hvalid, happly⟩ :=
    performGo_valid mods_root items fs0 0 0 [] [] res hok
  rw [List.nil_append] at hlogs
  by_cases hempty : newOps = []
  · subst hempty
    rw [hlogs, happly]
    rw [save_moves_log, if_pos rfl]
    rcases hlog with rfl | rfl
    · exact ⟨fun q => rfl, Or.inl rfl⟩
    · exact ⟨fun q => rfl, Or.inr rfl⟩
  · rw [hlogs]
    rw [save_moves_log, if_neg hempty]
    have hgd : log0.getD [] = [] := by rcases hlog with rfl | rfl <;> rfl
    rw [hgd]
    rw [undo_last_move_batch res.2.2.2.2 t newOps []]
    constructor
    · intro q
      exact undoOps_inverts newOps fs0 res.2.2.2.2 0 hvalid
        (fun r => by rw [happly]) q
    · exact Or.inr rfl

/-- A single included record for the C2 witness. -/
def c2Item : FileItem :=
  { path := "/m/a/f.package", name := "f.package", ext := ".package",
    size_mb := mkRat 0 1, relpath := "a/f.package", guess_type := "Mods",
    confidence := mkRat 7 10, notes := "", include_ := true,
    target_folder := "T" }

/-- Disk state of the C2 witness. -/
def c2FS : FS := [("/m/a/f.package", 7)]

/-- Result of perform_moves in the C2 witness. -/
def c2Res : Nat × Nat × List (String × String × String) × List MoveOp × FS :=
  (1, 0, [], [⟨"/m/a/f.package", "/m/T/f.package"⟩], [("/m/T/f.package", 7)])

theorem perform_save_undo_roundtrip_witness :
    perform_moves [c2Item] "/m" c2FS = .ok c2Res ∧
    findFS (undo_last_move c2Res.2.2.2.2
        (save_moves_log c2Res.2.2.2.1 (mkRat 0 1) none)).2.1 "/m/a/f.package"
      = findFS c2FS "/m/a/f.package" ∧
    ((undo_last_move c2Res.2.2.2.2
        (save_moves_log c2Res.2.2.2.1 (mkRat 0 1) none)).2.2 = none ∨
     (undo_last_move c2Res.2.2.2.2
        (save_moves_log c2Res.2.2.2.1 (mkRat 0 1) none)).2.2 = some []) :=
  ⟨rfl,
   (perform_save_undo_roundtrip [c2Item] "/m" c2FS (mkRat 0 1) none c2Res rfl
     (Or.inl rfl)).1 "/m/a/f.package",
   (perform_save_undo_roundtrip [c2Item] "/m" c2FS (mkRat 0 1) none c2Res rfl
     (Or.inl rfl)).2⟩

/-! ### C1: collision resolution never deletes. -/

/-- Quarantine half of one _col_apply iteration: move the older file
to a uniquified name under Colliding Mods when it exists. -/
def colStep1 (fs : FS) (ops : List MoveOp) (colliding_dir older_path : String) :
    FS × List MoveOp :=
  if existsFS fs older_path then
    (moveFS fs older_path (uniq_name_in fs colliding_dir (basename older_path)),
     ops ++ [⟨older_path, uniq_name_in fs colliding_dir (basename older_path)⟩])
  else (fs, ops)

/-- Second half of one _col_apply iteration: when the destination side
was older, move the source into the vacated (or uniquified)
destination. -/
def colStep2 (s1 : FS × List MoveOp) (p : CollisionPlanEntry) : FS × List MoveOp :=
  if p.older = "dst" ∧ existsFS s1.1 p.src then
    (moveFS s1.1 p.src
      (if existsFS s1.1 p.dst then uniq_name_in s1.1 (dirname p.dst) (basename p.dst)
       else p.dst),
     s1.2 ++ [⟨p.src,
       if existsFS s1.1 p.dst then uniq_name_in s1.1 (dirname p.dst) (basename p.dst)
       else p.dst⟩])
  else s1

theorem colApplyCase_cases (mods colliding_dir : String) (fs : FS)
    (ops : List MoveOp) (p : CollisionPlanEntry) :
    colApplyCase mods colliding_dir fs ops p = (fs, ops) ∨
    colApplyCase mods colliding_dir fs ops p =
      colStep2 (colStep1 fs ops colliding_dir
        (if p.older = "src" then p.src else p.dst)) p := by
  rw [colApplyCase]
  dsimp only
  split
  · exact Or.inl rfl
  · split
    all_goals split
    all_goals try exact Or.inl rfl
    all_goals split
    all_goals try exact Or.inl rfl
    all_goals exact Or.inr rfl

theorem colStep1_preserves (fs : FS) (ops : List MoveOp)
    (colliding_dir older_path : String) (v : Nat)
    (hv : ∃ q, findFS fs q = some v) :
    ∃ q, findFS (colStep1 fs ops colliding_dir older_path).1 q = some v := by
  obtain ⟨q0, hq0⟩ := hv
  rw [colStep1]
  split
  · exact moveFS_preserves fs older_path
      (uniq_name_in fs colliding_dir (basename older_path))
      ((existsFS_false_iff fs _).mp
        (uniq_name_in_fresh fs colliding_dir (basename older_path))) v q0 hq0
  · exact ⟨q0, hq0⟩

theorem colStep2_preserves (s1 : FS × List MoveOp) (p : CollisionPlanEntry) (v : Nat)
    (hv : ∃ q, findFS s1.1 q = some v) :
    ∃ q, findFS (colStep2 s1 p).1 q = some v := by
  obtain ⟨q0, hq0⟩ := hv
  rw [colStep2]
  split
  · cases hd : existsFS s1.1 p.dst with
    | true =>
      exact moveFS_preserves s1.1 p.src
        (uniq_name_in s1.1 (dirname p.dst) (basename p.dst))
        ((existsFS_false_iff s1.1 _).mp
          (uniq_name_in_fresh s1.1 (dirname p.dst) (basename p.dst))) v q0 hq0
    | false =>
      exact moveFS_preserves s1.1 p.src p.dst
        ((existsFS_false_iff s1.1 p.dst).mp hd) v q0 hq0
  · exact ⟨q0, hq0⟩

theorem colApplyCase_preserves (mods colliding_dir : String) (fs : FS)
    (ops : List MoveOp) (p : CollisionPlanEntry) (v : Nat)
    (hv : ∃ q, findFS fs q = some v) :
    ∃ q, findFS (colApplyCase mods colliding_dir fs ops p).1 q = some v := by
  rcases colApplyCase_cases mods colliding_dir fs ops p with h | h
  · rw [h]
    exact hv
  · rw [h]
    exact colStep2_preserves _ p v
      (colStep1_preserves fs ops colliding_dir _ v hv)

theorem col_apply_preserves_go (mods : String) :
    ∀ (plan : List CollisionPlanEntry) (acc : FS × List MoveOp) (v : Nat),
    (∃ q, findFS acc.1 q = some v) →
    ∃ q, findFS (plan.foldl (fun acc p =>
        colApplyCase mods (joinPath mods COLLIDING_DIR_NAME) acc.1 acc.2 p) acc).1 q
      = some v := by
  intro plan
  induction plan with
  | nil => intro acc v hv; exact hv
  | cons p rest ih =>
    intro acc v hv
    exact ih _ v (colApplyCase_preserves mods _ acc.1 acc.2 p v hv)

/-- C1, amended: the collision-apply step never deletes file contents:
any content present before it runs is still present at some path
afterwards.  (The claimed location discipline is what fails, not
conservation.) -/
theorem col_apply_never_deletes (mods : String) (plan : List CollisionPlanEntry)
    (fs : FS) (v : Nat) (hv : ∃ p, findFS fs p = some v) :
    ∃ q, findFS (col_apply mods plan fs).1 q = some v :=
  col_apply_preserves_go mods plan (fs, []) v hv

/-- Collision plan entry of the C1 counterexample: the destination
side is older. -/
def c1Entry : CollisionPlanEntry :=
  { src := "/m/a/f.package", dst := "/m/b/f.package", srcTs := mkRat 1 1,
    dstTs := mkRat 0 1, older := "dst", protect := true }

/-- Disk state of the C1 counterexample. -/
def c1FS : FS := [("/m/a/f.package", 1), ("/m/b/f.package", 2)]

/-- C1, counterexample: with the destination side older, the source
file's content (1) ends up at the vacated destination path
"/m/b/f.package" -- not at its original location "/m/a/f.package" and
not under the "Colliding Mods" quarantine folder (the final state is
pinned exactly, so content 1 is nowhere else). -/
theorem col_apply_src_leaves_claimed_locations :
    (col_apply "/m" [c1Entry] c1FS).1
      = [("/m/b/f.package", 1), ("/m/Colliding Mods/f.package", 2)] ∧
    ("/m/b/f.package" : String) ≠ "/m/a/f.package" ∧
    strStarts "/m/b/f.package" (joinPath "/m" COLLIDING_DIR_NAME ++ "/") = false := by
  refine ⟨by decide, by decide, by decide⟩

theorem col_apply_never_deletes_witness :
    (∃ p, findFS c1FS p = some 2) ∧
    (∃ q, findFS (col_apply "/m" [c1Entry] c1FS).1 q = some 2) :=
  ⟨⟨"/m/b/f.package", rfl⟩,
   col_apply_never_deletes "/m" [c1Entry] c1FS 2 ⟨"/m/b/f.package", rfl⟩⟩
